import Mathlib

/-!
Verification of the ES_BLE_VR_Glove telemetry core against its
natural-language specification.  The Python sources are shallowly
embedded: byte strings become `List Nat` (each element below 256),
`struct.unpack` becomes total pattern matching returning `Option`,
float32 values are modelled at bit level with an exact rational value
function, and stateful components become explicit state-passing
functions.
-/

namespace VRGlove

/-- Predicate: every element of the list is a byte (below 256). -/
def validBytes (data : List Nat) : Bool := data.all (fun b => b < 256)

/-- Little-endian unsigned 16-bit value from two bytes. -/
def u16le (b0 b1 : Nat) : Nat := b0 + 256 * b1

/-- Little-endian signed 16-bit value from two bytes
(models struct.unpack of a little-endian int16). -/
def i16le (b0 b1 : Nat) : Int :=
  let u := u16le b0 b1
  if u < 32768 then (u : Int) else (u : Int) - 65536

/-- Little-endian two-byte encoding of a signed 16-bit value
(models struct.pack of a little-endian int16); fails outside
the int16 range, as struct.pack does. -/
def packI16le (v : Int) : Option (List Nat) :=
  if -32768 ≤ v ∧ v ≤ 32767 then
    let u := (v % 65536).toNat
    some [u % 256, u / 256 % 256]
  else none

/-- Bit-level representation of an IEEE-754 single-precision value:
sign bit, 8-bit biased exponent, 23-bit fraction. -/
structure Float32 where
  sign : Bool
  exp : Nat
  frac : Nat
  deriving DecidableEq, Repr

/-- Decode four little-endian bytes into a float32 bit pattern
(models struct.unpack of a little-endian float32). -/
def decodeF32 (b0 b1 b2 b3 : Nat) : Float32 :=
  let bits := b0 % 256 + 256 * (b1 % 256) + 65536 * (b2 % 256) + 16777216 * (b3 % 256)
  { sign := bits / 2 ^ 31 % 2 == 1
    exp := bits / 2 ^ 23 % 256
    frac := bits % 2 ^ 23 }

/-- Encode a float32 bit pattern back into four little-endian bytes
(models struct.pack of a little-endian float32). -/
def encodeF32 (f : Float32) : List Nat :=
  let bits := (if f.sign then 2 ^ 31 else 0) + f.exp % 256 * 2 ^ 23 + f.frac % 2 ^ 23
  [bits % 256, bits / 256 % 256, bits / 65536 % 256, bits / 16777216 % 256]

/-- A float32 is finite when its exponent field is not all ones. -/
def Float32.isFinite (f : Float32) : Bool := f.exp != 255

/-- Exact rational value of a finite float32 bit pattern. -/
def Float32.val (f : Float32) : ℚ :=
  let mag : ℚ :=
    if f.exp = 0 then (f.frac : ℚ) / 2 ^ 149
    else ((2 ^ 23 + f.frac : ℕ) : ℚ) * 2 ^ f.exp / 2 ^ 150
  if f.sign then -mag else mag

/-- Round the exact fraction num/den (den positive) to the nearest
natural number, ties to even (the rounding used by the Python
fixed-point format). -/
def roundHalfEvenDiv (num den : Nat) : Nat :=
  let q := num / den
  let r := num % den
  if 2 * r < den then q
  else if den < 2 * r then q + 1
  else if q % 2 = 0 then q else q + 1

/-- Two-digit zero-padded decimal rendering of a natural number below 100. -/
def pad2 (n : Nat) : String :=
  if n < 10 then "0" ++ toString n else toString n

/-- Fixed two-decimal rendering of a float32, matching the Python
format specifier .2f: nan and inf keep their names; for a finite
value the integer computation rounds 100 times the exact magnitude
(mantissa times 2 to the exponent over 2 to the 150, or the
subnormal scale) half-to-even, and the sign bit alone decides the
minus sign (so negative zero renders with a minus). -/
def formatFixed2 (f : Float32) : String :=
  if f.exp = 255 then
    if f.frac ≠ 0 then "nan" else if f.sign then "-inf" else "inf"
  else
    let num := if f.exp = 0 then 100 * f.frac else 100 * (2 ^ 23 + f.frac) * 2 ^ f.exp
    let den := if f.exp = 0 then 2 ^ 149 else 2 ^ 150
    let n := roundHalfEvenDiv num den
    (if f.sign then "-" else "") ++ toString (n / 100) ++ "." ++ pad2 (n % 100)

/-- Test whether a byte is a UTF-8 continuation byte. -/
def utf8Cont (b : Nat) : Bool := 0x80 ≤ b && b < 0xC0

/-- Strict UTF-8 decoding of a byte list into characters, following the
standard table (rejecting overlong forms, surrogates and values above
U+10FFFF, as the Python strict utf-8 codec does).  The first argument
is fuel, at least the length of the list. -/
def utf8DecodeAux : Nat → List Nat → Option (List Char)
  | _, [] => some []
  | 0, _ :: _ => none
  | fuel + 1, b :: rest =>
    if b < 0x80 then
      (utf8DecodeAux fuel rest).map (fun cs => Char.ofNat b :: cs)
    else if b < 0xC2 then none
    else if b < 0xE0 then
      match rest with
      | b1 :: rest2 =>
        if utf8Cont b1 then
          (utf8DecodeAux fuel rest2).map
            (fun cs => Char.ofNat ((b - 0xC0) * 64 + (b1 - 0x80)) :: cs)
        else none
      | [] => none
    else if b < 0xF0 then
      match rest with
      | b1 :: b2 :: rest2 =>
        let lo1 := if b = 0xE0 then 0xA0 else 0x80
        let hi1 := if b = 0xED then 0x9F else 0xBF
        if lo1 ≤ b1 && b1 ≤ hi1 && utf8Cont b2 then
          (utf8DecodeAux fuel rest2).map
            (fun cs => Char.ofNat ((b - 0xE0) * 4096 + (b1 - 0x80) * 64 + (b2 - 0x80)) :: cs)
        else none
      | _ => none
    else if b < 0xF5 then
      match rest with
      | b1 :: b2 :: b3 :: rest2 =>
        let lo1 := if b = 0xF0 then 0x90 else 0x80
        let hi1 := if b = 0xF4 then 0x8F else 0xBF
        if lo1 ≤ b1 && b1 ≤ hi1 && utf8Cont b2 && utf8Cont b3 then
          (utf8DecodeAux fuel rest2).map
            (fun cs => Char.ofNat
              ((b - 0xF0) * 262144 + (b1 - 0x80) * 4096 + (b2 - 0x80) * 64 + (b3 - 0x80)) :: cs)
        else none
      | _ => none
    else none

/-- Strict UTF-8 decode of a byte list into a string;
none models a UnicodeDecodeError. -/
def pyDecodeUtf8 (data : List Nat) : Option String :=
  (utf8DecodeAux data.length data).map (fun cs => String.mk cs)

/-- Lowercase two-digit hexadecimal rendering of a byte. -/
def hexByteStr (b : Nat) : String :=
  let digits := "0123456789abcdef".toList
  String.mk [digits.getD (b / 16 % 16) default, digits.getD (b % 16) default]

namespace DataParser

/-- Data type constant from the DataType class. -/
@[simp]
def DataType.IMU_RAW : String := "imu_raw"

/-- Data type constant from the DataType class. -/
@[simp]
def DataType.IMU_EULER : String := "imu_euler"

/-- Data type constant from the DataType class. -/
@[simp]
def DataType.CONFIG : String := "config"

/-- Data type constant from the DataType class. -/
@[simp]
def DataType.FLEX_SENSOR : String := "flex_sensor"

/-- Data type constant from the DataType class. -/
@[simp]
def DataType.JOYSTICK : String := "joystick"

/-- Data type constant from the DataType class. -/
@[simp]
def DataType.BATTERY : String := "battery"

/-- Data type constant from the DataType class. -/
@[simp]
def DataType.CHARGING : String := "charging"

/-- Data type constant from the DataType class. -/
@[simp]
def DataType.DEVICE_INFO : String := "device_info"

/-- Data type constant from the DataType class. -/
@[simp]
def DataType.OVERALL_STATUS : String := "overall_status"

/-- Data type constant from the DataType class. -/
@[simp]
def DataType.BUTTONS : String := "buttons"

/-- Data type constant from the DataType class. -/
@[simp]
def DataType.FORCE_SENSOR : String := "force_sensor"

/-- Data type constant from the DataType class. -/
@[simp]
def DataType.UNKNOWN : String := "unknown"

/-- Embedding of DataParser.identify_data_type: classify a payload by
length and content.  The uuid parameter is accepted and ignored, as in
the source. -/
def identify_data_type (data : List Nat) (_uuid : String) : String :=
  if data = [] then DataType.UNKNOWN
  else
    let length := data.length
    if length = 18 then DataType.IMU_RAW
    else if length = 13 then DataType.IMU_EULER
    else if length = 15 then DataType.CONFIG
    else if length = 20 then DataType.FLEX_SENSOR
    else if length = 5 then DataType.JOYSTICK
    else if length = 4 then
      if data.all (fun x => x ≤ 3) then
        if 1 < data.foldl max 0 then DataType.OVERALL_STATUS else DataType.BUTTONS
      else DataType.FORCE_SENSOR
    else if length = 1 then
      if data.headI ≤ 100 then DataType.BATTERY else DataType.CHARGING
    else if 1 ≤ length ∧ length ≤ 12 then DataType.DEVICE_INFO
    else DataType.UNKNOWN

/-- Embedding of DataParser._parse_imu_raw: unpack nine little-endian
int16 values and render them with range warnings; none models the
struct.error raised when the payload is not exactly 18 bytes. -/
def _parse_imu_raw (data : List Nat) : Option String :=
  match data with
  | [a0, a1, a2, a3, a4, a5, a6, a7, a8, a9, a10, a11, a12, a13, a14, a15, a16, a17] =>
    let v0 := i16le a0 a1
    let v1 := i16le a2 a3
    let v2 := i16le a4 a5
    let v3 := i16le a6 a7
    let v4 := i16le a8 a9
    let v5 := i16le a10 a11
    let v6 := i16le a12 a13
    let v7 := i16le a14 a15
    let v8 := i16le a16 a17
    let accel_range := max (max v0.natAbs v1.natAbs) v2.natAbs
    let gyro_range := max (max v3.natAbs v4.natAbs) v5.natAbs
    let mag_range := max (max v6.natAbs v7.natAbs) v8.natAbs
    some ("IMU Raw Data:\n  Accel (mg): X=" ++ toString v0 ++ ", Y=" ++ toString v1 ++
      ", Z=" ++ toString v2 ++
      "\n  Gyro (0.01 rad/s): X=" ++ toString v3 ++ ", Y=" ++ toString v4 ++
      ", Z=" ++ toString v5 ++
      "\n  Mag (uT): X=" ++ toString v6 ++ ", Y=" ++ toString v7 ++ ", Z=" ++ toString v8 ++
      (if 16000 < accel_range then "\nWARNING: Accelerometer values exceed typical range" else "") ++
      (if 2000 < gyro_range then "\nWARNING: Gyroscope values exceed typical range" else "") ++
      (if 4800 < mag_range then "\nWARNING: Magnetometer values exceed typical range" else ""))
  | _ => none

/-- Comparison used by the Euler angle validation: a Python chained
float comparison is true only for finite values inside the bounds. -/
def angleInRange (f : Float32) : Bool :=
  f.isFinite && decide ((-180 : ℚ) ≤ f.val) && decide (f.val ≤ 180)

/-- Embedding of DataParser._parse_imu_euler: unpack three float32
values from the first 12 bytes and a calibration byte at index 12. -/
def _parse_imu_euler (data : List Nat) : Option String :=
  match data with
  | a0 :: a1 :: a2 :: a3 :: a4 :: a5 :: a6 :: a7 :: a8 :: a9 :: a10 :: a11 :: a12 :: _ =>
    let yaw := decodeF32 a0 a1 a2 a3
    let pitch := decodeF32 a4 a5 a6 a7
    let roll := decodeF32 a8 a9 a10 a11
    some ("IMU Euler Data:\n  Yaw (deg): " ++ formatFixed2 yaw ++
      "\n  Pitch (deg): " ++ formatFixed2 pitch ++
      "\n  Roll (deg): " ++ formatFixed2 roll ++
      "\n  Calibration Status: " ++ toString a12 ++
      (if angleInRange yaw && angleInRange pitch && angleInRange roll then ""
       else "\nWARNING: Euler angles outside valid range (-180° to 180°)"))
  | _ => none

/-- Decoded configuration record, mirroring the dict built by
DataParser.parse_imu_config (warnings key modelled as a list that is
empty when the dict key is absent). -/
structure IMUConfigRec where
  command : String
  accel_gyro_freq : Nat
  mag_freq : Nat
  accel_range : Nat
  gyro_range : Nat
  mag_range : Nat
  update_rate : Nat
  warnings : List String
  deriving DecidableEq, Repr

/-- Embedding of the _cmd_map dictionary lookup with its default. -/
def _cmd_map (cmd : Nat) : String :=
  if cmd = 0 then "IDLE"
  else if cmd = 1 then "RUN"
  else if cmd = 2 then "Start calibration IMU 1"
  else if cmd = 3 then "Start calibration IMU 2"
  else "Unknown (" ++ toString cmd ++ ")"

/-- One validation step of parse_imu_config against the imu_limits
table: a singleton warning when the value falls outside min..max. -/
def imuLimitWarning (param : String) (value mn mx : Nat) : List String :=
  if mn ≤ value ∧ value ≤ mx then []
  else [param ++ " value " ++ toString value ++ " outside valid range (" ++
    toString mn ++ " - " ++ toString mx ++ ")"]

/-- Embedding of DataParser.parse_imu_config: None unless the payload
is exactly 15 bytes; reads byte 0 as command, bytes 1, 2, 5, 6, 7 as
frequency and range codes, bytes 11..12 as a little-endian uint16
update rate, and validates the five read code bytes against the
imu_limits table in dict insertion order. -/
def parse_imu_config (data : List Nat) : Option IMUConfigRec :=
  match data with
  | [a0, a1, a2, _, _, a5, a6, a7, _, _, _, a11, a12, _, _] =>
    some
      { command := _cmd_map a0
        accel_gyro_freq := a1
        mag_freq := a2
        accel_range := a5
        gyro_range := a6
        mag_range := a7
        update_rate := u16le a11 a12
        warnings :=
          imuLimitWarning "accel_gyro_freq" a1 10 1000 ++
          imuLimitWarning "mag_freq" a2 10 100 ++
          imuLimitWarning "accel_range" a5 2 16 ++
          imuLimitWarning "gyro_range" a6 125 2000 ++
          imuLimitWarning "mag_range" a7 4 16 }
  | _ => none

/-- Embedding of DataParser._parse_config: render the configuration
record, or the fixed failure text when parse_imu_config returns None. -/
def _parse_config (data : List Nat) : String :=
  match parse_imu_config data with
  | none => "Invalid configuration data"
  | some config =>
    let block (i : Nat) : String :=
      "IMU" ++ toString i ++ " Configuration:\n  Frequencies:\n" ++
      "    Accelerometer & Gyroscope: " ++ toString config.accel_gyro_freq ++ " Hz\n" ++
      "    Magnetometer: " ++ toString config.mag_freq ++ " Hz\n  Ranges:\n" ++
      "    Accelerometer: ±" ++ toString config.accel_range ++ "g\n" ++
      "    Gyroscope: ±" ++ toString config.gyro_range ++ " dps\n" ++
      "    Magnetometer: ±" ++ toString config.mag_range ++ " gauss\n\n"
    "Configuration Data:\nCommand State: " ++ config.command ++ "\n\n" ++
      block 1 ++ block 2 ++
      "Sensor Update Rate: " ++ toString config.update_rate ++ " ms" ++
      (if config.warnings = [] then ""
       else "\n\nConfiguration Warnings:\n" ++
         String.join (config.warnings.map (fun w => "- " ++ w ++ "\n")))

/-- Comparison used by the flex sensor validation (true only for
finite values inside 10..110). -/
def flexInRange (f : Float32) : Bool :=
  f.isFinite && decide ((10 : ℚ) ≤ f.val) && decide (f.val ≤ 110)

/-- Embedding of DataParser._parse_flex_sensor: unpack five float32
values (exactly 20 bytes) and render each with a range warning. -/
def _parse_flex_sensor (data : List Nat) : Option String :=
  match data with
  | [a0, a1, a2, a3, a4, a5, a6, a7, a8, a9, a10, a11, a12, a13, a14, a15, a16, a17, a18, a19] =>
    let vs := [decodeF32 a0 a1 a2 a3, decodeF32 a4 a5 a6 a7, decodeF32 a8 a9 a10 a11,
      decodeF32 a12 a13 a14 a15, decodeF32 a16 a17 a18 a19]
    some ("Flex Sensor Data (KOhm):\n" ++
      String.join (vs.enum.map (fun p =>
        "  Sensor " ++ toString (p.1 + 1) ++ ": " ++ formatFixed2 p.2 ++
        (if flexInRange p.2 then "" else " (WARNING: Outside typical range)") ++ "\n")))
  | _ => none

/-- Embedding of DataParser._parse_joystick: two little-endian int16
axes from the first four bytes plus a button byte at index 4.  The
center test compares the axis offset against 4095 times 0.015; the
comparison is stated over thousandths, which agrees with the Python
float computation at integer resolution. -/
def _parse_joystick (data : List Nat) : Option String :=
  match data with
  | a0 :: a1 :: a2 :: a3 :: a4 :: _ =>
    let x := i16le a0 a1
    let y := i16le a2 a3
    some ("Joystick Data:\n  X axis: " ++ toString x ++ "\n  Y axis: " ++ toString y ++
      "\n  Button: " ++ (if a4 = 1 then "Pressed" else "Not Pressed") ++
      (if 0 ≤ x ∧ x ≤ 4095 ∧ 0 ≤ y ∧ y ≤ 4095 then ""
       else "\nWARNING: Values outside valid range (0-4095)") ++
      (if (x - 2047).natAbs * 1000 ≤ 61425 ∧ (y - 2047).natAbs * 1000 ≤ 61425 then
        "\nJoystick in center position" else ""))
  | _ => none

/-- Embedding of the _status_map dictionary lookup with its default. -/
def _status_map (n : Nat) : String :=
  if n = 0 then "Not Detected"
  else if n = 1 then "Failed"
  else if n = 2 then "Idle"
  else if n = 3 then "Running"
  else "Unknown"

/-- Embedding of DataParser._parse_overall_status: error code plus
three component states from the first four bytes. -/
def _parse_overall_status (data : List Nat) : Option String :=
  match data with
  | a0 :: a1 :: a2 :: a3 :: _ =>
    let error := if a0 = 0 then "No Error" else "General Error"
    some ("Overall Status:\n  Status Code: " ++ toString a0 ++ " (" ++ error ++ ")" ++
      "\n  Fuelgauge: " ++ _status_map a1 ++
      "\n  IMU1: " ++ _status_map a2 ++
      "\n  IMU2: " ++ _status_map a3)
  | _ => none

/-- Embedding of DataParser._parse_buttons: one line per byte, a
nonzero byte reading as Pressed. -/
def _parse_buttons (data : List Nat) : String :=
  String.intercalate "\n"
    ("Button States:" ::
      data.enum.map (fun p =>
        "  Button " ++ toString (p.1 + 1) ++ ": " ++
        (if p.2 ≠ 0 then "Pressed" else "Not Pressed")))

/-- Embedding of DataParser._parse_force_sensor: one little-endian
float32 from exactly four bytes. -/
def _parse_force_sensor (data : List Nat) : Option String :=
  match data with
  | [a0, a1, a2, a3] =>
    some ("Force Sensor: " ++ formatFixed2 (decodeF32 a0 a1 a2 a3) ++ " kOhm")
  | _ => none

/-- Embedding of DataParser._parse_battery: the first byte as a
percentage with a low-battery warning at 20 or below. -/
def _parse_battery (data : List Nat) : Option String :=
  match data with
  | a0 :: _ =>
    some ("Battery Level: " ++ (if 20 < a0 then "🔋" else "🪫") ++ " " ++
      toString a0 ++ "%" ++ (if a0 ≤ 20 then "\nWARNING: Low battery" else ""))
  | [] => none

/-- Embedding of the _charging_map dictionary lookup with its default. -/
def _charging_map (n : Nat) : String :=
  if n = 0 then "🔌 Not Charging"
  else if n = 1 then "⚡ Charging"
  else if n = 2 then "✅ Fully Charged"
  else "Unknown State"

/-- Embedding of DataParser._parse_charging. -/
def _parse_charging (data : List Nat) : Option String :=
  match data with
  | a0 :: _ => some ("Charging State: " ++ _charging_map a0)
  | [] => none

/-- Embedding of DataParser._format_raw_data: hexadecimal dump plus a
printable-ASCII view. -/
def _format_raw_data (data : List Nat) : String :=
  "Data (Hex): " ++ String.intercalate " " (data.map hexByteStr) ++
  "\nASCII: " ++ String.mk (data.map (fun b =>
    if 0x20 ≤ b ∧ b ≤ 0x7E then Char.ofNat b else Char.ofNat 46))

/-- Embedding of DataParser._parse_device_info, parameterised by the
characteristic-uuid lookup of the BLEConfig collaborator (whose table
is loaded from gatt.json).  A UTF-8 decode failure falls back to the
raw dump, as the inner try block does. -/
def _parse_device_info (cfg : String → String) (data : List Nat) (uuid : String) : String :=
  match pyDecodeUtf8 data with
  | none => _format_raw_data data
  | some text =>
    if data.length = 9 then
      if uuid = cfg "FIRMWARE_UUID" then "Firmware Version: " ++ text
      else if uuid = cfg "HARDWARE_UUID" then "Hardware Version: " ++ text
      else "Version: " ++ text
    else if data.length = 12 then
      if text = "DegapVrGlove" then "Model: " ++ text
      else if text = "NUS/Seamless" then "Manufacturer: " ++ text
      else "Device Info: " ++ text
    else "Device Info: " ++ text

/-- Lift an optional parse result into the exception monad of the
try block in parse_data (none models a raised struct.error or
IndexError). -/
def liftParse : Option String → Except String String
  | some s => .ok s
  | none => .error "struct.error"

/-- Embedding of the body of DataParser.parse_data before its
exception handler: dispatch on the identified data type; an error
value models an exception escaping a branch. -/
def parse_dataE (cfg : String → String) (data : List Nat) (uuid : String) :
    Except String String :=
  let data_type := identify_data_type data uuid
  if data_type = DataType.IMU_RAW then liftParse (_parse_imu_raw data)
  else if data_type = DataType.IMU_EULER then liftParse (_parse_imu_euler data)
  else if data_type = DataType.CONFIG then .ok (_parse_config data)
  else if data_type = DataType.FLEX_SENSOR then liftParse (_parse_flex_sensor data)
  else if data_type = DataType.JOYSTICK then liftParse (_parse_joystick data)
  else if data_type = DataType.OVERALL_STATUS then liftParse (_parse_overall_status data)
  else if data_type = DataType.BUTTONS then .ok (_parse_buttons data)
  else if data_type = DataType.FORCE_SENSOR then liftParse (_parse_force_sensor data)
  else if data_type = DataType.BATTERY then liftParse (_parse_battery data)
  else if data_type = DataType.CHARGING then liftParse (_parse_charging data)
  else if data_type = DataType.DEVICE_INFO then .ok (_parse_device_info cfg data uuid)
  else .ok (_format_raw_data data)

/-- Embedding of DataParser.parse_data including its exception
handler, which converts any escaped exception into a Parse error
string. -/
def parse_data (cfg : String → String) (data : List Nat) (uuid : String) : String :=
  match parse_dataE cfg data uuid with
  | .ok s => s
  | .error e => "Parse error: " ++ e

end DataParser

/-- Model class of src/model/imu.py IMUData: nine int16 sensor axes
plus the raw payload. -/
structure IMUData where
  accel_x : Int
  accel_y : Int
  accel_z : Int
  gyro_x : Int
  gyro_y : Int
  gyro_z : Int
  mag_x : Int
  mag_y : Int
  mag_z : Int
  raw_data : List Nat
  deriving DecidableEq, Repr

/-- Embedding of IMUData.from_bytes: None unless the payload is
exactly 18 bytes, otherwise unpack nine little-endian int16 values. -/
def IMUData.from_bytes (data : List Nat) : Option IMUData :=
  match data with
  | [a0, a1, a2, a3, a4, a5, a6, a7, a8, a9, a10, a11, a12, a13, a14, a15, a16, a17] =>
    some
      { accel_x := i16le a0 a1, accel_y := i16le a2 a3, accel_z := i16le a4 a5
        gyro_x := i16le a6 a7, gyro_y := i16le a8 a9, gyro_z := i16le a10 a11
        mag_x := i16le a12 a13, mag_y := i16le a14 a15, mag_z := i16le a16 a17
        raw_data := data }
  | _ => none

/-- Embedding of IMUData.to_bytes: pack nine little-endian int16
values; none models the struct.error raised on an out-of-range
field (the method then returns None). -/
def IMUData.to_bytes (d : IMUData) : Option (List Nat) := do
  let b0 ← packI16le d.accel_x
  let b1 ← packI16le d.accel_y
  let b2 ← packI16le d.accel_z
  let b3 ← packI16le d.gyro_x
  let b4 ← packI16le d.gyro_y
  let b5 ← packI16le d.gyro_z
  let b6 ← packI16le d.mag_x
  let b7 ← packI16le d.mag_y
  let b8 ← packI16le d.mag_z
  return b0 ++ b1 ++ b2 ++ b3 ++ b4 ++ b5 ++ b6 ++ b7 ++ b8

/-- Model class of src/model/imu.py IMUEulerData: three float32 Euler
angles, a calibration byte and the raw payload. -/
structure IMUEulerData where
  yaw : Float32
  pitch : Float32
  roll : Float32
  calib_status : Nat
  raw_data : List Nat
  deriving DecidableEq, Repr

/-- Embedding of IMUEulerData.from_bytes: None unless the payload is
exactly 13 bytes, otherwise unpack three little-endian float32 values
and the calibration byte. -/
def IMUEulerData.from_bytes (data : List Nat) : Option IMUEulerData :=
  match data with
  | [a0, a1, a2, a3, a4, a5, a6, a7, a8, a9, a10, a11, a12] =>
    some
      { yaw := decodeF32 a0 a1 a2 a3
        pitch := decodeF32 a4 a5 a6 a7
        roll := decodeF32 a8 a9 a10 a11
        calib_status := a12
        raw_data := data }
  | _ => none

/-- Embedding of IMUEulerData.to_bytes: pack three little-endian
float32 values and one uint8; none models the struct.error raised
when the calibration byte is out of range. -/
def IMUEulerData.to_bytes (d : IMUEulerData) : Option (List Nat) :=
  if d.calib_status < 256 then
    some (encodeF32 d.yaw ++ encodeF32 d.pitch ++ encodeF32 d.roll ++ [d.calib_status])
  else none

/-- Well-formedness of a 13-byte Euler payload: the three float32
fields are finite (not nan or inf), so that the platform narrowing
performed by struct.pack is exact. -/
def eulerWellFormed (data : List Nat) : Bool :=
  match data with
  | [a0, a1, a2, a3, a4, a5, a6, a7, a8, a9, a10, a11, _] =>
    (decodeF32 a0 a1 a2 a3).isFinite && (decodeF32 a4 a5 a6 a7).isFinite &&
      (decodeF32 a8 a9 a10 a11).isFinite
  | _ => false

namespace IMUConfigUtil

/-- Byte positions of the five configuration fields of one IMU,
from the IMUConfigUtil position constants. -/
structure IMUConfigPositions where
  accel_gyro_freq : Nat
  mag_freq : Nat
  accel_range : Nat
  gyro_range : Nat
  mag_range : Nat
  deriving DecidableEq, Repr

/-- Embedding of IMUConfigUtil.get_imu_config_positions; none models
the ValueError raised for an IMU number other than 1 or 2. -/
def get_imu_config_positions : Nat → Option IMUConfigPositions
  | 1 => some { accel_gyro_freq := 1, mag_freq := 2, accel_range := 5, gyro_range := 6, mag_range := 7 }
  | 2 => some { accel_gyro_freq := 3, mag_freq := 4, accel_range := 8, gyro_range := 9, mag_range := 10 }
  | _ => none

/-- A code table of the configuration collaborator: pairs of numeric
wire code and human-readable value, in dict insertion order. -/
abbrev CodeMap := List (Nat × String)

/-- Forward dictionary lookup (a Python dict built from the pairs, so
the last binding of a key wins); none models a KeyError. -/
def dictLookup (m : CodeMap) (k : Nat) : Option String :=
  (m.reverse.find? (fun p => p.1 == k)).map Prod.snd

/-- Reverse dictionary lookup, modelling the REV_MAP dict
comprehension (the last pair with a given value wins); none models a
KeyError. -/
def revLookup (m : CodeMap) (v : String) : Option Nat :=
  (m.reverse.find? (fun p => p.2 == v)).map Prod.fst

/-- Modelled from the spec: the five per-field code tables of the
configuration collaborator (BLEConstants reads them from gatt.json,
which is not part of the sources; §6 specifies only that the
collaborator resolves codes to enumerations and back). -/
structure GattMaps where
  accel_gyro_freq_map : CodeMap
  mag_freq_map : CodeMap
  accel_range_map : CodeMap
  gyro_range_map : CodeMap
  mag_range_map : CodeMap

/-- Decoded per-IMU configuration view, mirroring the dict returned
by IMUConfigUtil.get_config_from_bytes. -/
structure IMUViewCfg where
  accel_gyro_rate : String
  mag_rate : String
  accel_range : String
  gyro_range : String
  mag_range : String
  deriving DecidableEq, Repr

/-- Indexing into a byte array; none models an IndexError. -/
def readByte (l : List Nat) (i : Nat) : Option Nat := l[i]?

/-- Updating a byte array in place; none models an IndexError. -/
def updateByte (l : List Nat) (i v : Nat) : Option (List Nat) :=
  if i < l.length then some (l.set i v) else none

/-- Embedding of IMUConfigUtil.get_config_from_bytes: decode the five
fields of one IMU through the forward code tables; none models a
raised ValueError, IndexError or KeyError. -/
def get_config_from_bytes (maps : GattMaps) (data : List Nat) (imu_number : Nat) :
    Option IMUViewCfg :=
  (get_imu_config_positions imu_number).bind fun pos =>
  (readByte data pos.accel_gyro_freq).bind fun c1 =>
  (dictLookup maps.accel_gyro_freq_map c1).bind fun v1 =>
  (readByte data pos.mag_freq).bind fun c2 =>
  (dictLookup maps.mag_freq_map c2).bind fun v2 =>
  (readByte data pos.accel_range).bind fun c3 =>
  (dictLookup maps.accel_range_map c3).bind fun v3 =>
  (readByte data pos.gyro_range).bind fun c4 =>
  (dictLookup maps.gyro_range_map c4).bind fun v4 =>
  (readByte data pos.mag_range).bind fun c5 =>
  (dictLookup maps.mag_range_map c5).bind fun v5 =>
  some
    { accel_gyro_rate := v1
      mag_rate := v2
      accel_range := v3
      gyro_range := v4
      mag_range := v5 }

/-- Embedding of IMUConfigUtil.update_config_bytes: write the five
fields of one IMU back through the reverse code tables; none models a
raised ValueError, IndexError or KeyError. -/
def update_config_bytes (maps : GattMaps) (data : List Nat) (imu_number : Nat)
    (config : IMUViewCfg) : Option (List Nat) :=
  (get_imu_config_positions imu_number).bind fun pos =>
  (revLookup maps.accel_gyro_freq_map config.accel_gyro_rate).bind fun k1 =>
  (updateByte data pos.accel_gyro_freq k1).bind fun d1 =>
  (revLookup maps.mag_freq_map config.mag_rate).bind fun k2 =>
  (updateByte d1 pos.mag_freq k2).bind fun d2 =>
  (revLookup maps.accel_range_map config.accel_range).bind fun k3 =>
  (updateByte d2 pos.accel_range k3).bind fun d3 =>
  (revLookup maps.gyro_range_map config.gyro_range).bind fun k4 =>
  (updateByte d3 pos.gyro_range k4).bind fun d4 =>
  (revLookup maps.mag_range_map config.mag_range).bind fun k5 =>
  (updateByte d4 pos.mag_range k5).bind fun d5 =>
  some d5

/-- A code table is well formed when its wire codes are pairwise
distinct and its human-readable values are pairwise distinct, so that
the reverse dict inverts the forward dict (the spec requires the
collaborator to resolve codes to enumerations and back). -/
def codeMapWellFormed (m : CodeMap) : Prop :=
  (m.map Prod.fst).Nodup ∧ (m.map Prod.snd).Nodup

/-- All five code tables are well formed. -/
def gattMapsWellFormed (maps : GattMaps) : Prop :=
  codeMapWellFormed maps.accel_gyro_freq_map ∧ codeMapWellFormed maps.mag_freq_map ∧
    codeMapWellFormed maps.accel_range_map ∧ codeMapWellFormed maps.gyro_range_map ∧
    codeMapWellFormed maps.mag_range_map

end IMUConfigUtil

namespace SensorLog

/-- State of a SensorLog channel: the bounded FIFO queue (front is
oldest) and the logging flag.  Queue capacity is 1000, from
queue.Queue with maxsize 1000. -/
structure LogState (α : Type) where
  queue : List α
  is_logging : Bool
  row_count : Nat
  deriving Repr

/-- Queue capacity from queue.Queue(maxsize=1000). -/
def maxsize : Nat := 1000

/-- Embedding of SensorLog.write_csv: a no-op when logging is off,
otherwise a non-blocking put that drops the record when the queue is
full (the queue.Full exception is swallowed). -/
def write_csv {α : Type} (s : LogState α) (rec : α) : LogState α :=
  if s.is_logging = false then s
  else if s.queue.length < maxsize then { s with queue := s.queue ++ [rec] } else s

end SensorLog

namespace DeviceManager

/-- Required presenter names checked by
DeviceManager._verify_required_presenters. -/
def required_presenters : List String :=
  ["profile", "overall_status", "imu1", "imu2", "timestamp", "sensor", "connection", "gamepad"]

/-- Services started by DeviceManager.start_services. -/
def services : List String :=
  ["profile", "overall_status", "imu1", "imu2", "sensor", "gamepad", "log"]

/-- Critical service set from DeviceManager.start_services. -/
def critical_services : List String := ["imu1", "imu2"]

/-- Embedding of DeviceManager._start_service_with_retry: the
environment gives the outcome of each attempt (false for a False
return or a raised exception); the loop succeeds as soon as one of
the first max_retries attempts succeeds. -/
def _start_service_with_retry (outcome : Nat → Bool) (max_retries : Nat) : Bool :=
  (List.range max_retries).any outcome

/-- Number of attempts the retry loop performs: it stops after the
first success, and otherwise exhausts max_retries attempts. -/
def attemptsMade (outcome : Nat → Bool) (max_retries : Nat) : Nat :=
  match (List.range max_retries).findIdx? outcome with
  | some i => i + 1
  | none => max_retries

/-- Embedding of DeviceManager.start_services: start every service
with the 10-attempt retry loop, collect failures, and when a critical
service failed run cleanup (deactivating every subscription) and
return False; the returned list is the set of services with an active
subscription afterwards.  The time-sync step between the retries and
the critical check only logs its boolean outcome (presenter failures
surface as False returns, per the error taxonomy) and does not feed
into the result, so it is not modelled. -/
def start_services (outcome : String → Nat → Bool) : Bool × List String :=
  let results := services.map (fun s => (s, _start_service_with_retry (outcome s) 10))
  let failures := (results.filter (fun p => !p.2)).map Prod.fst
  let started := (results.filter (fun p => p.2)).map Prod.fst
  if critical_services.any (fun c => failures.contains c) then (false, [])
  else (true, started)

/-- Fields of the DeviceManager singleton object. -/
structure DMObj where
  service : Option Nat
  presenters : Option (List String)
  initialized : Bool
  deriving DecidableEq, Repr

/-- Embedding of one constructor call DeviceManager(ble_service,
presenters): __new__ returns the process-wide instance, creating it
on first use, and __init__ assigns the fields and verifies the
presenter table only when the initialized attribute is absent.
Returns the new singleton state and the result of the call (an error
models the TypeError or KeyError raised during verification; the
fields assigned before the raise stay assigned, with initialized
still unset). -/
def call (inst : Option DMObj) (ble_service : Option Nat)
    (presenters : Option (List String)) : Option DMObj × Except String DMObj :=
  let obj0 := inst.getD { service := none, presenters := none, initialized := false }
  if obj0.initialized then (some obj0, .ok obj0)
  else
    let obj1 : DMObj := { service := ble_service, presenters := presenters, initialized := false }
    match presenters with
    | none => (some obj1, .error "TypeError: argument of type NoneType is not iterable")
    | some ps =>
      if required_presenters.all (fun r => ps.contains r) then
        let obj2 : DMObj := { obj1 with initialized := true }
        (some obj2, .ok obj2)
      else (some obj1, .error "KeyError: missing required presenter")

end DeviceManager

namespace ESP32Service

/-- State of ESP32BLEService relevant to notification subscription:
the connection flag, the callback registry keyed by characteristic
uuid, and a count of transport-level start_notify invocations issued
to the client. -/
structure NotifyState where
  connected : Bool
  callbacks : String → Option Nat
  transport_calls : Nat

/-- Pointwise update of the callback registry. -/
def updFun (f : String → Option Nat) (k : String) (v : Option Nat) :
    String → Option Nat :=
  fun x => if x = k then v else f x

/-- Attempt loop of _start_notify_generic: each attempt stores the
callback in the registry and issues one transport-level start_notify
call, whose outcome the environment decides; a failure (raised
exception) is retried until the fuel runs out. -/
def notifyAttempts (uuid : String) (cb : Nat) (outcome : Nat → Bool) :
    Nat → Nat → NotifyState → Bool × NotifyState
  | 0, _, st => (false, st)
  | fuel + 1, i, st =>
    let st1 : NotifyState :=
      { st with
        callbacks := updFun st.callbacks uuid (some cb)
        transport_calls := st.transport_calls + 1 }
    if outcome i then (true, st1)
    else notifyAttempts uuid cb outcome fuel (i + 1) st1

/-- Embedding of ESP32BLEService._start_notify_generic with its
default of retries = 5: returns False when not connected, otherwise
runs the attempt loop.  The source contains no already-subscribed
check: every call issues transport subscribes regardless of the
current registry contents. -/
def _start_notify_generic (st : NotifyState) (uuid : String) (cb : Nat)
    (outcome : Nat → Bool) : Bool × NotifyState :=
  if st.connected = false then (false, st)
  else notifyAttempts uuid cb outcome 5 0 st

end ESP32Service

namespace ConnectionPresenter

/-- Constant MAX_RECONNECT_ATTEMPTS of
ConnectionPresenter._check_connection. -/
def MAX_RECONNECT_ATTEMPTS : Nat := 5

/-- Constant RECONNECT_DELAY (seconds) of
ConnectionPresenter._check_connection. -/
def RECONNECT_DELAY : Nat := 5

/-- Final state of a reconnection episode. -/
inductive SessionOutcome where
  | reconnected
  | disconnected
  deriving DecidableEq, Repr

/-- One reconnection attempt succeeds when both the transport connect
and the subsequent service startup succeed (the environment gives the
two outcomes per attempt index). -/
def attemptOk (env : Nat → Bool × Bool) (i : Nat) : Bool :=
  (env i).1 && (env i).2

/-- Attempt loop of the auto-reconnection block: on success break out
(back to monitoring); on failure sleep RECONNECT_DELAY seconds unless
this was the last attempt; when the loop exhausts, disconnect.
Returns the number of attempts made, the number of delay sleeps
taken, and the final outcome. -/
def reconnectAux (succ : Nat → Bool) : Nat → Nat → Nat → Nat × Nat × SessionOutcome
  | 0, i, delays => (i, delays, SessionOutcome.disconnected)
  | fuel + 1, i, delays =>
    if succ i then (i + 1, delays, SessionOutcome.reconnected)
    else if i < MAX_RECONNECT_ATTEMPTS - 1 then reconnectAux succ fuel (i + 1) (delays + 1)
    else reconnectAux succ fuel (i + 1) delays

/-- Embedding of the auto-reconnection block of
ConnectionPresenter._check_connection, entered after a heartbeat read
returns an empty device name while connected. -/
def auto_reconnect (env : Nat → Bool × Bool) : Nat × Nat × SessionOutcome :=
  reconnectAux (attemptOk env) MAX_RECONNECT_ATTEMPTS 0 0

end ConnectionPresenter

end VRGlove

open VRGlove

/-- Peel one element off a list of known successor length. -/
lemma exists_cons_of_len {α : Type} (n : Nat) (l : List α) (h : l.length = n + 1) :
    ∃ a t, l = a :: t ∧ t.length = n := by
  cases l with
  | nil => simp at h
  | cons a t => exact ⟨a, t, rfl, by simpa using h⟩

/-- Explicit form of a 4-element list. -/
lemma list_len4 {α : Type} (l : List α) (h : l.length = 4) :
    ∃ a0 a1 a2 a3,
      l = [a0, a1, a2, a3] := by
  obtain ⟨a0, l, rfl, h0⟩ := exists_cons_of_len 3 l h
  obtain ⟨a1, l, rfl, h1⟩ := exists_cons_of_len 2 l h0
  obtain ⟨a2, l, rfl, h2⟩ := exists_cons_of_len 1 l h1
  obtain ⟨a3, l, rfl, h3⟩ := exists_cons_of_len 0 l h2
  rw [List.length_eq_zero] at h3
  subst h3
  exact ⟨a0, a1, a2, a3, rfl⟩

/-- Explicit form of a 5-element list. -/
lemma list_len5 {α : Type} (l : List α) (h : l.length = 5) :
    ∃ a0 a1 a2 a3 a4,
      l = [a0, a1, a2, a3, a4] := by
  obtain ⟨a0, l, rfl, h0⟩ := exists_cons_of_len 4 l h
  obtain ⟨a1, l, rfl, h1⟩ := exists_cons_of_len 3 l h0
  obtain ⟨a2, l, rfl, h2⟩ := exists_cons_of_len 2 l h1
  obtain ⟨a3, l, rfl, h3⟩ := exists_cons_of_len 1 l h2
  obtain ⟨a4, l, rfl, h4⟩ := exists_cons_of_len 0 l h3
  rw [List.length_eq_zero] at h4
  subst h4
  exact ⟨a0, a1, a2, a3, a4, rfl⟩

/-- Explicit form of a 13-element list. -/
lemma list_len13 {α : Type} (l : List α) (h : l.length = 13) :
    ∃ a0 a1 a2 a3 a4 a5 a6 a7 a8 a9 a10 a11 a12,
      l = [a0, a1, a2, a3, a4, a5, a6, a7, a8, a9, a10, a11, a12] := by
  obtain ⟨a0, l, rfl, h0⟩ := exists_cons_of_len 12 l h
  obtain ⟨a1, l, rfl, h1⟩ := exists_cons_of_len 11 l h0
  obtain ⟨a2, l, rfl, h2⟩ := exists_cons_of_len 10 l h1
  obtain ⟨a3, l, rfl, h3⟩ := exists_cons_of_len 9 l h2
  obtain ⟨a4, l, rfl, h4⟩ := exists_cons_of_len 8 l h3
  obtain ⟨a5, l, rfl, h5⟩ := exists_cons_of_len 7 l h4
  obtain ⟨a6, l, rfl, h6⟩ := exists_cons_of_len 6 l h5
  obtain ⟨a7, l, rfl, h7⟩ := exists_cons_of_len 5 l h6
  obtain ⟨a8, l, rfl, h8⟩ := exists_cons_of_len 4 l h7
  obtain ⟨a9, l, rfl, h9⟩ := exists_cons_of_len 3 l h8
  obtain ⟨a10, l, rfl, h10⟩ := exists_cons_of_len 2 l h9
  obtain ⟨a11, l, rfl, h11⟩ := exists_cons_of_len 1 l h10
  obtain ⟨a12, l, rfl, h12⟩ := exists_cons_of_len 0 l h11
  rw [List.length_eq_zero] at h12
  subst h12
  exact ⟨a0, a1, a2, a3, a4, a5, a6, a7, a8, a9, a10, a11, a12, rfl⟩

/-- Explicit form of a 15-element list. -/
lemma list_len15 {α : Type} (l : List α) (h : l.length = 15) :
    ∃ a0 a1 a2 a3 a4 a5 a6 a7 a8 a9 a10 a11 a12 a13 a14,
      l = [a0, a1, a2, a3, a4, a5, a6, a7, a8, a9, a10, a11, a12, a13, a14] := by
  obtain ⟨a0, l, rfl, h0⟩ := exists_cons_of_len 14 l h
  obtain ⟨a1, l, rfl, h1⟩ := exists_cons_of_len 13 l h0
  obtain ⟨a2, l, rfl, h2⟩ := exists_cons_of_len 12 l h1
  obtain ⟨a3, l, rfl, h3⟩ := exists_cons_of_len 11 l h2
  obtain ⟨a4, l, rfl, h4⟩ := exists_cons_of_len 10 l h3
  obtain ⟨a5, l, rfl, h5⟩ := exists_cons_of_len 9 l h4
  obtain ⟨a6, l, rfl, h6⟩ := exists_cons_of_len 8 l h5
  obtain ⟨a7, l, rfl, h7⟩ := exists_cons_of_len 7 l h6
  obtain ⟨a8, l, rfl, h8⟩ := exists_cons_of_len 6 l h7
  obtain ⟨a9, l, rfl, h9⟩ := exists_cons_of_len 5 l h8
  obtain ⟨a10, l, rfl, h10⟩ := exists_cons_of_len 4 l h9
  obtain ⟨a11, l, rfl, h11⟩ := exists_cons_of_len 3 l h10
  obtain ⟨a12, l, rfl, h12⟩ := exists_cons_of_len 2 l h11
  obtain ⟨a13, l, rfl, h13⟩ := exists_cons_of_len 1 l h12
  obtain ⟨a14, l, rfl, h14⟩ := exists_cons_of_len 0 l h13
  rw [List.length_eq_zero] at h14
  subst h14
  exact ⟨a0, a1, a2, a3, a4, a5, a6, a7, a8, a9, a10, a11, a12, a13, a14, rfl⟩

/-- Explicit form of a 18-element list. -/
lemma list_len18 {α : Type} (l : List α) (h : l.length = 18) :
    ∃ a0 a1 a2 a3 a4 a5 a6 a7 a8 a9 a10 a11 a12 a13 a14 a15 a16 a17,
      l = [a0, a1, a2, a3, a4, a5, a6, a7, a8, a9, a10, a11, a12, a13, a14, a15, a16, a17] := by
  obtain ⟨a0, l, rfl, h0⟩ := exists_cons_of_len 17 l h
  obtain ⟨a1, l, rfl, h1⟩ := exists_cons_of_len 16 l h0
  obtain ⟨a2, l, rfl, h2⟩ := exists_cons_of_len 15 l h1
  obtain ⟨a3, l, rfl, h3⟩ := exists_cons_of_len 14 l h2
  obtain ⟨a4, l, rfl, h4⟩ := exists_cons_of_len 13 l h3
  obtain ⟨a5, l, rfl, h5⟩ := exists_cons_of_len 12 l h4
  obtain ⟨a6, l, rfl, h6⟩ := exists_cons_of_len 11 l h5
  obtain ⟨a7, l, rfl, h7⟩ := exists_cons_of_len 10 l h6
  obtain ⟨a8, l, rfl, h8⟩ := exists_cons_of_len 9 l h7
  obtain ⟨a9, l, rfl, h9⟩ := exists_cons_of_len 8 l h8
  obtain ⟨a10, l, rfl, h10⟩ := exists_cons_of_len 7 l h9
  obtain ⟨a11, l, rfl, h11⟩ := exists_cons_of_len 6 l h10
  obtain ⟨a12, l, rfl, h12⟩ := exists_cons_of_len 5 l h11
  obtain ⟨a13, l, rfl, h13⟩ := exists_cons_of_len 4 l h12
  obtain ⟨a14, l, rfl, h14⟩ := exists_cons_of_len 3 l h13
  obtain ⟨a15, l, rfl, h15⟩ := exists_cons_of_len 2 l h14
  obtain ⟨a16, l, rfl, h16⟩ := exists_cons_of_len 1 l h15
  obtain ⟨a17, l, rfl, h17⟩ := exists_cons_of_len 0 l h16
  rw [List.length_eq_zero] at h17
  subst h17
  exact ⟨a0, a1, a2, a3, a4, a5, a6, a7, a8, a9, a10, a11, a12, a13, a14, a15, a16, a17, rfl⟩

/-- Explicit form of a 20-element list. -/
lemma list_len20 {α : Type} (l : List α) (h : l.length = 20) :
    ∃ a0 a1 a2 a3 a4 a5 a6 a7 a8 a9 a10 a11 a12 a13 a14 a15 a16 a17 a18 a19,
      l = [a0, a1, a2, a3, a4, a5, a6, a7, a8, a9, a10, a11, a12, a13, a14, a15, a16, a17, a18, a19] := by
  obtain ⟨a0, l, rfl, h0⟩ := exists_cons_of_len 19 l h
  obtain ⟨a1, l, rfl, h1⟩ := exists_cons_of_len 18 l h0
  obtain ⟨a2, l, rfl, h2⟩ := exists_cons_of_len 17 l h1
  obtain ⟨a3, l, rfl, h3⟩ := exists_cons_of_len 16 l h2
  obtain ⟨a4, l, rfl, h4⟩ := exists_cons_of_len 15 l h3
  obtain ⟨a5, l, rfl, h5⟩ := exists_cons_of_len 14 l h4
  obtain ⟨a6, l, rfl, h6⟩ := exists_cons_of_len 13 l h5
  obtain ⟨a7, l, rfl, h7⟩ := exists_cons_of_len 12 l h6
  obtain ⟨a8, l, rfl, h8⟩ := exists_cons_of_len 11 l h7
  obtain ⟨a9, l, rfl, h9⟩ := exists_cons_of_len 10 l h8
  obtain ⟨a10, l, rfl, h10⟩ := exists_cons_of_len 9 l h9
  obtain ⟨a11, l, rfl, h11⟩ := exists_cons_of_len 8 l h10
  obtain ⟨a12, l, rfl, h12⟩ := exists_cons_of_len 7 l h11
  obtain ⟨a13, l, rfl, h13⟩ := exists_cons_of_len 6 l h12
  obtain ⟨a14, l, rfl, h14⟩ := exists_cons_of_len 5 l h13
  obtain ⟨a15, l, rfl, h15⟩ := exists_cons_of_len 4 l h14
  obtain ⟨a16, l, rfl, h16⟩ := exists_cons_of_len 3 l h15
  obtain ⟨a17, l, rfl, h17⟩ := exists_cons_of_len 2 l h16
  obtain ⟨a18, l, rfl, h18⟩ := exists_cons_of_len 1 l h17
  obtain ⟨a19, l, rfl, h19⟩ := exists_cons_of_len 0 l h18
  rw [List.length_eq_zero] at h19
  subst h19
  exact ⟨a0, a1, a2, a3, a4, a5, a6, a7, a8, a9, a10, a11, a12, a13, a14, a15, a16, a17, a18, a19, rfl⟩

/-- Unpacking then packing a little-endian int16 restores the bytes. -/
lemma packI16le_i16le (b0 b1 : Nat) (h0 : b0 < 256) (h1 : b1 < 256) :
    packI16le (i16le b0 b1) = some [b0, b1] := by
  simp only [i16le, u16le]
  by_cases hu : b0 + 256 * b1 < 32768
  · rw [if_pos hu]
    simp only [packI16le]
    rw [if_pos (by constructor <;> omega)]
    simp only [Option.some.injEq, List.cons.injEq, and_true]
    constructor <;> omega
  · rw [if_neg hu]
    simp only [packI16le]
    rw [if_pos (by constructor <;> omega)]
    simp only [Option.some.injEq, List.cons.injEq, and_true]
    constructor <;> omega

/-- Decoding then encoding a float32 restores the four bytes. -/
lemma encodeF32_decodeF32 (b0 b1 b2 b3 : Nat) (h0 : b0 < 256) (h1 : b1 < 256)
    (h2 : b2 < 256) (h3 : b3 < 256) :
    encodeF32 (decodeF32 b0 b1 b2 b3) = [b0, b1, b2, b3] := by
  have e0 : b0 % 256 = b0 := Nat.mod_eq_of_lt h0
  have e1 : b1 % 256 = b1 := Nat.mod_eq_of_lt h1
  have e2 : b2 % 256 = b2 := Nat.mod_eq_of_lt h2
  have e3 : b3 % 256 = b3 := Nat.mod_eq_of_lt h3
  simp only [decodeF32, encodeF32, e0, e1, e2, e3]
  by_cases hs : (b0 + 256 * b1 + 65536 * b2 + 16777216 * b3) / 2 ^ 31 % 2 = 1
  · simp only [hs, beq_self_eq_true, if_true, List.cons.injEq, and_true]
    norm_num
    omega
  · have hz : (b0 + 256 * b1 + 65536 * b2 + 16777216 * b3) / 2 ^ 31 % 2 = 0 := by omega
    simp only [hz, List.cons.injEq, and_true]
    norm_num
    omega

/-- In a pair list with pairwise-distinct keys and values, the value
found by key determines the key found by value. -/
lemma find_snd_of_find_fst (l : List (Nat × String)) (hk : (l.map Prod.fst).Nodup)
    (hv : (l.map Prod.snd).Nodup) (k : Nat) (v : String)
    (h : (l.find? (fun p => p.1 == k)).map Prod.snd = some v) :
    (l.find? (fun p => p.2 == v)).map Prod.fst = some k := by
  induction l with
  | nil => simp at h
  | cons p t ih =>
    by_cases hpk : p.1 = k
    · rw [List.find?_cons_of_pos _ (by simp [hpk])] at h
      simp only [Option.map_some', Option.some.injEq] at h
      rw [List.find?_cons_of_pos _ (by simp [h])]
      simp [hpk]
    · rw [List.find?_cons_of_neg _ (by simp [hpk])] at h
      have hk2 : ((t.map Prod.fst).Nodup) := by
        simp only [List.map_cons, List.nodup_cons] at hk
        exact hk.2
      have hv2 : ((t.map Prod.snd).Nodup) := by
        simp only [List.map_cons, List.nodup_cons] at hv
        exact hv.2
      have hrec := ih hk2 hv2 h
      obtain ⟨q, hq, hq2⟩ : ∃ q, t.find? (fun p => p.1 == k) = some q ∧ q.2 = v := by
        cases e : t.find? (fun p => p.1 == k) with
        | none => rw [e] at h; simp at h
        | some q => rw [e] at h; simp at h; exact ⟨q, rfl, h⟩
      have hqmem : q ∈ t := List.mem_of_find?_eq_some hq
      have hpv : ¬ p.2 = v := by
        intro e
        simp only [List.map_cons, List.nodup_cons] at hv
        exact hv.1 (e ▸ hq2 ▸ List.mem_map_of_mem Prod.snd hqmem)
      rw [List.find?_cons_of_neg _ (by simp [hpv])]
      exact hrec

/-- Reading the reverse dict at the value read from the forward dict
recovers the wire code, for a well-formed code table. -/
lemma revLookup_dictLookup (m : IMUConfigUtil.CodeMap)
    (hwf : IMUConfigUtil.codeMapWellFormed m) (k : Nat) (v : String)
    (h : IMUConfigUtil.dictLookup m k = some v) :
    IMUConfigUtil.revLookup m v = some k := by
  obtain ⟨hk, hv⟩ := hwf
  have hk2 : ((m.reverse.map Prod.fst).Nodup) := by
    rw [List.map_reverse, List.nodup_reverse]
    exact hk
  have hv2 : ((m.reverse.map Prod.snd).Nodup) := by
    rw [List.map_reverse, List.nodup_reverse]
    exact hv
  simp only [IMUConfigUtil.dictLookup] at h
  simp only [IMUConfigUtil.revLookup]
  exact find_snd_of_find_fst m.reverse hk2 hv2 k v h

/-- Writing back the value already stored at an index leaves the list
unchanged. -/
lemma set_getElem?_self (l : List Nat) (i v : Nat) (h : l[i]? = some v) :
    l.set i v = l := by
  induction l generalizing i with
  | nil => simp at h
  | cons a t ih =>
    cases i with
    | zero =>
      simp only [List.getElem?_cons_zero, Option.some.injEq] at h
      simp [h]
    | succ n =>
      simp only [List.getElem?_cons_succ] at h
      rw [List.set_cons_succ, ih n h]

/-- The position table exists only for IMU numbers 1 and 2. -/
lemma get_imu_config_positions_eq_none (imu : Nat) (h1 : imu ≠ 1) (h2 : imu ≠ 2) :
    IMUConfigUtil.get_imu_config_positions imu = none :=
  match imu, h1, h2 with
  | 0, _, _ => rfl
  | 1, h, _ => absurd rfl h
  | 2, _, h => absurd rfl h
  | _ + 3, _, _ => rfl

/-- Folding write_csv over a record list appends exactly the records
that fit in the remaining queue capacity, and leaves the logging flag
untouched. -/
lemma write_csv_foldl {α : Type} (records : List α) (s : SensorLog.LogState α)
    (h : s.is_logging = true) :
    (records.foldl SensorLog.write_csv s).queue =
      s.queue ++ records.take (SensorLog.maxsize - s.queue.length) ∧
    (records.foldl SensorLog.write_csv s).is_logging = true := by
  induction records generalizing s with
  | nil => simpa using h
  | cons r rs ih =>
    by_cases hlen : s.queue.length < SensorLog.maxsize
    · have hstep : SensorLog.write_csv s r = { s with queue := s.queue ++ [r] } := by
        simp [SensorLog.write_csv, h, hlen]
      have ih2 := ih { s with queue := s.queue ++ [r] } (by simp [h])
      rw [List.foldl_cons, hstep]
      refine ⟨?_, ih2.2⟩
      rw [ih2.1]
      have harith : SensorLog.maxsize - s.queue.length =
          (SensorLog.maxsize - (s.queue.length + 1)) + 1 := by omega
      simp only [List.length_append, List.length_cons, List.length_nil, harith,
        List.take_succ_cons, List.append_assoc]
      simp
    · have hstep : SensorLog.write_csv s r = s := by
        simp [SensorLog.write_csv, h, hlen]
      have harith : SensorLog.maxsize - s.queue.length = 0 := by omega
      have ih2 := ih s h
      rw [List.foldl_cons, hstep]
      refine ⟨?_, ih2.2⟩
      rw [ih2.1, harith]
      simp

/-- C5: write_csv is a bounded non-blocking enqueue of capacity 1000;
with logging on, an empty queue and no consumer, folding 1500 records
through write_csv retains exactly the first 1000 records, in order,
and drops the rest without error (the embedding is total, so no
exception escapes). -/
theorem c5_logging_backpressure :
    ∀ (records : List Nat) (s : SensorLog.LogState Nat),
      s.is_logging = true → s.queue = [] → records.length = 1500 →
      (records.foldl SensorLog.write_csv s).queue = records.take 1000 ∧
      (records.foldl SensorLog.write_csv s).queue.length = 1000 ∧
      ∀ i : Nat, i < 1000 →
        (records.foldl SensorLog.write_csv s).queue[i]? = records[i]? := by
  intro records s hlog hq hlen
  have hfold := (write_csv_foldl records s hlog).1
  rw [hq] at hfold
  simp only [List.nil_append, List.length_nil, Nat.sub_zero] at hfold
  have hq1000 : (records.foldl SensorLog.write_csv s).queue = records.take 1000 := hfold
  refine ⟨hq1000, ?_, ?_⟩
  · rw [hq1000, List.length_take, hlen]
    omega
  · intro i hi
    rw [hq1000]
    exact List.getElem?_take_of_lt hi

/-- C5 witness: the concrete 1500-record run. -/
theorem c5_logging_backpressure_witness :
    ((List.range 1500).foldl SensorLog.write_csv
        { queue := [], is_logging := true, row_count := 0 }).queue =
      (List.range 1500).take 1000 :=
  (c5_logging_backpressure (List.range 1500)
    { queue := [], is_logging := true, row_count := 0 }
    rfl rfl (by simp)).1

/-- Config field roundtrip for one IMU: writing back the values read
from a payload through well-formed code tables restores the payload. -/
lemma config_update_of_get (maps : IMUConfigUtil.GattMaps) (data : List Nat) (imu : Nat)
    (cfgv : IMUConfigUtil.IMUViewCfg) (hwf : IMUConfigUtil.gattMapsWellFormed maps)
    (hget : IMUConfigUtil.get_config_from_bytes maps data imu = some cfgv) :
    IMUConfigUtil.update_config_bytes maps data imu cfgv = some data := by
  obtain ⟨hwf1, hwf2, hwf3, hwf4, hwf5⟩ := hwf
  by_cases e1 : imu = 1
  · subst e1
    simp only [IMUConfigUtil.get_config_from_bytes, IMUConfigUtil.get_imu_config_positions,
      Option.some_bind, IMUConfigUtil.readByte, Option.bind_eq_some, Option.pure_def,
      Option.some.injEq] at hget
    obtain ⟨c1, hc1, v1, hv1, c2, hc2, v2, hv2, c3, hc3, v3, hv3, c4, hc4, v4, hv4,
      c5, hc5, v5, hv5, hcfg⟩ := hget
    subst hcfg
    have hl1 := (List.getElem?_eq_some.mp hc1).1
    have hl2 := (List.getElem?_eq_some.mp hc2).1
    have hl3 := (List.getElem?_eq_some.mp hc3).1
    have hl4 := (List.getElem?_eq_some.mp hc4).1
    have hl5 := (List.getElem?_eq_some.mp hc5).1
    simp only [IMUConfigUtil.update_config_bytes, IMUConfigUtil.get_imu_config_positions,
      Option.some_bind, IMUConfigUtil.updateByte,
      revLookup_dictLookup maps.accel_gyro_freq_map ⟨hwf1.1, hwf1.2⟩ c1 v1 hv1,
      revLookup_dictLookup maps.mag_freq_map ⟨hwf2.1, hwf2.2⟩ c2 v2 hv2,
      revLookup_dictLookup maps.accel_range_map ⟨hwf3.1, hwf3.2⟩ c3 v3 hv3,
      revLookup_dictLookup maps.gyro_range_map ⟨hwf4.1, hwf4.2⟩ c4 v4 hv4,
      revLookup_dictLookup maps.mag_range_map ⟨hwf5.1, hwf5.2⟩ c5 v5 hv5,
      set_getElem?_self data 1 c1 hc1, set_getElem?_self data 2 c2 hc2,
      set_getElem?_self data 5 c3 hc3, set_getElem?_self data 6 c4 hc4,
      set_getElem?_self data 7 c5 hc5, hl1, hl2, hl3, hl4, hl5, if_true]
  · by_cases e2 : imu = 2
    · subst e2
      simp only [IMUConfigUtil.get_config_from_bytes, IMUConfigUtil.get_imu_config_positions,
        Option.some_bind, IMUConfigUtil.readByte, Option.bind_eq_some, Option.pure_def,
        Option.some.injEq] at hget
      obtain ⟨c1, hc1, v1, hv1, c2, hc2, v2, hv2, c3, hc3, v3, hv3, c4, hc4, v4, hv4,
        c5, hc5, v5, hv5, hcfg⟩ := hget
      subst hcfg
      have hl1 := (List.getElem?_eq_some.mp hc1).1
      have hl2 := (List.getElem?_eq_some.mp hc2).1
      have hl3 := (List.getElem?_eq_some.mp hc3).1
      have hl4 := (List.getElem?_eq_some.mp hc4).1
      have hl5 := (List.getElem?_eq_some.mp hc5).1
      simp only [IMUConfigUtil.update_config_bytes, IMUConfigUtil.get_imu_config_positions,
        Option.some_bind, IMUConfigUtil.updateByte,
        revLookup_dictLookup maps.accel_gyro_freq_map ⟨hwf1.1, hwf1.2⟩ c1 v1 hv1,
        revLookup_dictLookup maps.mag_freq_map ⟨hwf2.1, hwf2.2⟩ c2 v2 hv2,
        revLookup_dictLookup maps.accel_range_map ⟨hwf3.1, hwf3.2⟩ c3 v3 hv3,
        revLookup_dictLookup maps.gyro_range_map ⟨hwf4.1, hwf4.2⟩ c4 v4 hv4,
        revLookup_dictLookup maps.mag_range_map ⟨hwf5.1, hwf5.2⟩ c5 v5 hv5,
        set_getElem?_self data 3 c1 hc1, set_getElem?_self data 4 c2 hc2,
        set_getElem?_self data 8 c3 hc3, set_getElem?_self data 9 c4 hc4,
        set_getElem?_self data 10 c5 hc5, hl1, hl2, hl3, hl4, hl5, if_true]
    · rw [IMUConfigUtil.get_config_from_bytes,
        get_imu_config_positions_eq_none imu e1 e2] at hget
      simp at hget

/-- C4: encode after decode is the identity on every 18-byte IMU raw
payload, on every well-formed (finite-angle) 13-byte IMU Euler
payload, and on the configuration field roundtrip through the
configuration collaborator code tables (modelled from the spec as
arbitrary well-formed tables, gatt.json not being part of the
sources): reading the five per-IMU fields and writing them back
restores the payload. -/
theorem c4_roundtrip :
    (∀ data : List Nat, data.length = 18 → validBytes data = true →
      ∃ r, IMUData.from_bytes data = some r ∧ r.to_bytes = some data) ∧
    (∀ data : List Nat, data.length = 13 → validBytes data = true →
      eulerWellFormed data = true →
      ∃ r, IMUEulerData.from_bytes data = some r ∧ r.to_bytes = some data) ∧
    (∀ (maps : IMUConfigUtil.GattMaps) (data : List Nat) (imu : Nat)
        (cfgv : IMUConfigUtil.IMUViewCfg),
      IMUConfigUtil.gattMapsWellFormed maps →
      IMUConfigUtil.get_config_from_bytes maps data imu = some cfgv →
      IMUConfigUtil.update_config_bytes maps data imu cfgv = some data) := by
  refine ⟨?_, ?_, ?_⟩
  · intro data hlen hval
    obtain ⟨a0, a1, a2, a3, a4, a5, a6, a7, a8, a9, a10, a11, a12, a13, a14, a15, a16, a17,
      rfl⟩ := list_len18 data hlen
    simp only [validBytes, List.all_cons, List.all_nil, Bool.and_true, Bool.and_eq_true,
      decide_eq_true_eq] at hval
    obtain ⟨k0, k1, k2, k3, k4, k5, k6, k7, k8, k9, k10, k11, k12, k13, k14, k15, k16,
      k17⟩ := hval
    refine ⟨_, rfl, ?_⟩
    simp [IMUData.to_bytes, packI16le_i16le a0 a1 k0 k1, packI16le_i16le a2 a3 k2 k3,
      packI16le_i16le a4 a5 k4 k5, packI16le_i16le a6 a7 k6 k7,
      packI16le_i16le a8 a9 k8 k9, packI16le_i16le a10 a11 k10 k11,
      packI16le_i16le a12 a13 k12 k13, packI16le_i16le a14 a15 k14 k15,
      packI16le_i16le a16 a17 k16 k17]
  · intro data hlen hval _hwf
    obtain ⟨a0, a1, a2, a3, a4, a5, a6, a7, a8, a9, a10, a11, a12, rfl⟩ :=
      list_len13 data hlen
    simp only [validBytes, List.all_cons, List.all_nil, Bool.and_true, Bool.and_eq_true,
      decide_eq_true_eq] at hval
    obtain ⟨k0, k1, k2, k3, k4, k5, k6, k7, k8, k9, k10, k11, k12⟩ := hval
    refine ⟨_, rfl, ?_⟩
    simp [IMUEulerData.to_bytes, encodeF32_decodeF32 a0 a1 a2 a3 k0 k1 k2 k3,
      encodeF32_decodeF32 a4 a5 a6 a7 k4 k5 k6 k7,
      encodeF32_decodeF32 a8 a9 a10 a11 k8 k9 k10 k11, k12]
  · exact fun maps data imu cfgv hwf hget => config_update_of_get maps data imu cfgv hwf hget

/-- C4 witness: concrete roundtrips for an 18-byte raw payload, a
13-byte Euler payload and a two-entry code table. -/
theorem c4_roundtrip_witness :
    (∃ r, IMUData.from_bytes
        [255, 127, 0, 128, 1, 0, 2, 0, 3, 0, 4, 0, 5, 0, 6, 0, 7, 0] = some r ∧
      r.to_bytes = some [255, 127, 0, 128, 1, 0, 2, 0, 3, 0, 4, 0, 5, 0, 6, 0, 7, 0]) ∧
    (∃ r, IMUEulerData.from_bytes
        [0, 0, 72, 65, 0, 0, 128, 191, 0, 0, 0, 0, 3] = some r ∧
      r.to_bytes = some [0, 0, 72, 65, 0, 0, 128, 191, 0, 0, 0, 0, 3]) ∧
    IMUConfigUtil.update_config_bytes
      { accel_gyro_freq_map := [(6, "104Hz")], mag_freq_map := [(5, "20Hz")]
        accel_range_map := [(2, "4g")], gyro_range_map := [(2, "500dps")]
        mag_range_map := [(1, "8gauss")] }
      [1, 6, 5, 6, 5, 2, 2, 1, 2, 2, 1, 100, 0, 0, 0] 1
      { accel_gyro_rate := "104Hz", mag_rate := "20Hz", accel_range := "4g"
        gyro_range := "500dps", mag_range := "8gauss" } =
      some [1, 6, 5, 6, 5, 2, 2, 1, 2, 2, 1, 100, 0, 0, 0] := by
  refine ⟨?_, ?_, ?_⟩
  · exact c4_roundtrip.1 [255, 127, 0, 128, 1, 0, 2, 0, 3, 0, 4, 0, 5, 0, 6, 0, 7, 0]
      (by decide) (by decide)
  · exact c4_roundtrip.2.1 [0, 0, 72, 65, 0, 0, 128, 191, 0, 0, 0, 0, 3]
      (by decide) (by decide) (by decide)
  · exact c4_roundtrip.2.2
      { accel_gyro_freq_map := [(6, "104Hz")], mag_freq_map := [(5, "20Hz")]
        accel_range_map := [(2, "4g")], gyro_range_map := [(2, "500dps")]
        mag_range_map := [(1, "8gauss")] }
      [1, 6, 5, 6, 5, 2, 2, 1, 2, 2, 1, 100, 0, 0, 0] 1
      { accel_gyro_rate := "104Hz", mag_rate := "20Hz", accel_range := "4g"
        gyro_range := "500dps", mag_range := "8gauss" }
      (by simp [IMUConfigUtil.gattMapsWellFormed, IMUConfigUtil.codeMapWellFormed])
      (by rfl)

/-- C9 counterexample: two 15-byte configuration payloads that differ
only in byte 3 (one of the claimed per-IMU code bytes 1..10) decode
to the same record, so the decoder does not read the full byte 1..10
region: bytes 3, 4, 8, 9 and 10 are ignored. -/
theorem c9_counterexample :
    DataParser.parse_imu_config [1, 20, 20, 0, 0, 8, 200, 8, 0, 0, 0, 100, 0, 0, 0] =
      DataParser.parse_imu_config [1, 20, 20, 99, 0, 8, 200, 8, 0, 0, 0, 100, 0, 0, 0] ∧
    ([1, 20, 20, 0, 0, 8, 200, 8, 0, 0, 0, 100, 0, 0, 0] : List Nat) ≠
      [1, 20, 20, 99, 0, 8, 200, 8, 0, 0, 0, 100, 0, 0, 0] := by
  exact ⟨rfl, by decide⟩

/-- C9 amended: for every 15-byte payload, parse_imu_config returns a
record (never rejects) with byte 0 as the command, the code bytes
taken from positions 1, 2, 5, 6, 7 only (positions 3, 4, 8, 9, 10 do
not influence the record), bytes 11..12 as the little-endian uint16
update rate, and the warning list empty exactly when each of the five
read code bytes lies inside the built-in imu_limits table of the
parser. -/
theorem c9_config_decode :
    ∀ data : List Nat, data.length = 15 →
      ∃ rec : DataParser.IMUConfigRec,
        DataParser.parse_imu_config data = some rec ∧
        rec.command = DataParser._cmd_map (data.getD 0 0) ∧
        rec.accel_gyro_freq = data.getD 1 0 ∧
        rec.mag_freq = data.getD 2 0 ∧
        rec.accel_range = data.getD 5 0 ∧
        rec.gyro_range = data.getD 6 0 ∧
        rec.mag_range = data.getD 7 0 ∧
        rec.update_rate = u16le (data.getD 11 0) (data.getD 12 0) ∧
        (∀ i ∈ ([3, 4, 8, 9, 10] : List Nat), ∀ v : Nat,
          DataParser.parse_imu_config (data.set i v) = DataParser.parse_imu_config data) ∧
        (rec.warnings = [] ↔
          (10 ≤ data.getD 1 0 ∧ data.getD 1 0 ≤ 1000) ∧
          (10 ≤ data.getD 2 0 ∧ data.getD 2 0 ≤ 100) ∧
          (2 ≤ data.getD 5 0 ∧ data.getD 5 0 ≤ 16) ∧
          (125 ≤ data.getD 6 0 ∧ data.getD 6 0 ≤ 2000) ∧
          (4 ≤ data.getD 7 0 ∧ data.getD 7 0 ≤ 16)) := by
  intro data h
  obtain ⟨a0, a1, a2, a3, a4, a5, a6, a7, a8, a9, a10, a11, a12, a13, a14, rfl⟩ :=
    list_len15 data h
  refine ⟨_, rfl, ?_, ?_, ?_, ?_, ?_, ?_, ?_, ?_, ?_⟩
  · rfl
  · rfl
  · rfl
  · rfl
  · rfl
  · rfl
  · rfl
  · intro i hi v
    simp only [List.mem_cons, List.not_mem_nil, or_false] at hi
    rcases hi with rfl | rfl | rfl | rfl | rfl <;> rfl
  · rcases Decidable.em (10 ≤ a1 ∧ a1 ≤ 1000) with h1 | h1 <;>
      rcases Decidable.em (10 ≤ a2 ∧ a2 ≤ 100) with h2 | h2 <;>
      rcases Decidable.em (2 ≤ a5 ∧ a5 ≤ 16) with h3 | h3 <;>
      rcases Decidable.em (125 ≤ a6 ∧ a6 ≤ 2000) with h4 | h4 <;>
      rcases Decidable.em (4 ≤ a7 ∧ a7 ≤ 16) with h5 | h5 <;>
      simp [DataParser.imuLimitWarning, h1, h2, h3, h4, h5]

/-- C9 amended witness: the all-in-range payload with command RUN. -/
theorem c9_config_decode_witness :
    ∃ rec : DataParser.IMUConfigRec,
      DataParser.parse_imu_config [1, 20, 20, 0, 0, 8, 200, 8, 0, 0, 0, 100, 0, 0, 0] =
        some rec ∧ rec.update_rate = 100 ∧ rec.warnings = [] := by
  obtain ⟨rec, hsome, _, hfq, _, _, _, _, hup, _, hw⟩ :=
    c9_config_decode [1, 20, 20, 0, 0, 8, 200, 8, 0, 0, 0, 100, 0, 0, 0] (by decide)
  exact ⟨rec, hsome, by rw [hup]; decide, hw.mpr (by decide)⟩

/-- C10: DeviceManager is an init-once singleton: a constructor call
on an already-initialized instance returns the same object with the
service and presenters fields unchanged, whatever the arguments; and
a first call with a complete presenter table creates the initialized
instance with the given fields. -/
theorem c10_singleton_init_once :
    (∀ (o : DeviceManager.DMObj) (svc : Option Nat) (pres : Option (List String)),
      o.initialized = true →
      DeviceManager.call (some o) svc pres = (some o, Except.ok o)) ∧
    (∀ (svc : Option Nat) (ps : List String),
      DeviceManager.required_presenters.all (fun r => ps.contains r) = true →
      DeviceManager.call none svc (some ps) =
        (some { service := svc, presenters := some ps, initialized := true },
         Except.ok { service := svc, presenters := some ps, initialized := true })) := by
  constructor
  · intro o svc pres h
    simp [DeviceManager.call, h]
  · intro svc ps h
    simp only [List.all_eq_true] at h
    simp [DeviceManager.call, List.all_eq_true]
    intro x hx
    exact List.mem_of_elem_eq_true (h x hx)

/-- C10 witness: a second constructor call with different arguments
leaves the initialized singleton untouched. -/
theorem c10_singleton_init_once_witness :
    DeviceManager.call
        (some { service := some 1, presenters := some ["x"], initialized := true })
        (some 2) none =
      (some { service := some 1, presenters := some ["x"], initialized := true },
       Except.ok { service := some 1, presenters := some ["x"], initialized := true }) :=
  c10_singleton_init_once.1
    { service := some 1, presenters := some ["x"], initialized := true }
    (some 2) none rfl

/-- C1: the decoder is total and deterministic: on every byte payload
of length at most 255 and every uuid, the dispatch body of parse_data
completes without an exception escaping any branch (so the outer
handler never produces a Parse error string), and the result is a
function of the input. -/
theorem c1_decoder_total_deterministic :
    ∀ (cfg : String → String) (data : List Nat) (uuid : String),
      data.length ≤ 255 → validBytes data = true →
      (∃ s, DataParser.parse_dataE cfg data uuid = Except.ok s) ∧
      DataParser.parse_data cfg data uuid = DataParser.parse_data cfg data uuid := by
  intro cfg data uuid hlen hval
  refine ⟨?_, rfl⟩
  by_cases hnil : data = []
  · subst hnil
    exact ⟨_, rfl⟩
  · by_cases h18 : data.length = 18
    · obtain ⟨a0, a1, a2, a3, a4, a5, a6, a7, a8, a9, a10, a11, a12, a13, a14, a15, a16,
        a17, rfl⟩ := list_len18 data h18
      simp [DataParser.parse_dataE, DataParser.identify_data_type, DataParser.liftParse,
        DataParser._parse_imu_raw]
    · by_cases h13 : data.length = 13
      · obtain ⟨a0, a1, a2, a3, a4, a5, a6, a7, a8, a9, a10, a11, a12, rfl⟩ :=
          list_len13 data h13
        simp [DataParser.parse_dataE, DataParser.identify_data_type, DataParser.liftParse,
          DataParser._parse_imu_euler]
      · by_cases h15 : data.length = 15
        · obtain ⟨a0, a1, a2, a3, a4, a5, a6, a7, a8, a9, a10, a11, a12, a13, a14, rfl⟩ :=
            list_len15 data h15
          simp [DataParser.parse_dataE, DataParser.identify_data_type]
        · by_cases h20 : data.length = 20
          · obtain ⟨a0, a1, a2, a3, a4, a5, a6, a7, a8, a9, a10, a11, a12, a13, a14, a15,
              a16, a17, a18, a19, rfl⟩ := list_len20 data h20
            simp [DataParser.parse_dataE, DataParser.identify_data_type,
              DataParser.liftParse, DataParser._parse_flex_sensor]
          · by_cases h5 : data.length = 5
            · obtain ⟨a0, a1, a2, a3, a4, rfl⟩ := list_len5 data h5
              simp [DataParser.parse_dataE, DataParser.identify_data_type,
                DataParser.liftParse, DataParser._parse_joystick]
            · by_cases h4 : data.length = 4
              · obtain ⟨a0, a1, a2, a3, rfl⟩ := list_len4 data h4
                by_cases hall : ([a0, a1, a2, a3].all fun x => x ≤ 3) = true
                · by_cases hm : 1 < [a0, a1, a2, a3].foldl max 0
                  · have hid : DataParser.identify_data_type [a0, a1, a2, a3] uuid =
                        DataParser.DataType.OVERALL_STATUS := by
                      simp only [List.foldl] at hm
                      simp [DataParser.identify_data_type, hall]
                      intro ha hb hc
                      omega
                    simp [DataParser.parse_dataE, hid, DataParser.liftParse,
                      DataParser._parse_overall_status]
                  · have hid : DataParser.identify_data_type [a0, a1, a2, a3] uuid =
                        DataParser.DataType.BUTTONS := by
                      simp only [List.foldl] at hm
                      simp [DataParser.identify_data_type, hall]
                      omega
                    simp [DataParser.parse_dataE, hid]
                · have hallf : ([a0, a1, a2, a3].all fun x => x ≤ 3) = false := by
                    revert hall
                    cases ([a0, a1, a2, a3].all fun x => x ≤ 3) <;> simp
                  have hid : DataParser.identify_data_type [a0, a1, a2, a3] uuid =
                      DataParser.DataType.FORCE_SENSOR := by
                    simp [DataParser.identify_data_type, hallf]
                  simp [DataParser.parse_dataE, hid, DataParser.liftParse,
                    DataParser._parse_force_sensor]
              · by_cases h1 : data.length = 1
                · obtain ⟨v, rfl⟩ := List.length_eq_one.mp h1
                  by_cases hv : v ≤ 100
                  · simp [DataParser.parse_dataE, DataParser.identify_data_type, hv,
                      DataParser.liftParse, DataParser._parse_battery]
                  · simp [DataParser.parse_dataE, DataParser.identify_data_type, hv,
                      DataParser.liftParse, DataParser._parse_charging]
                · have hid : DataParser.identify_data_type data uuid =
                      (if 1 ≤ data.length ∧ data.length ≤ 12
                       then DataParser.DataType.DEVICE_INFO
                       else DataParser.DataType.UNKNOWN) := by
                    simp [DataParser.identify_data_type, hnil, h18, h13, h15, h20, h5,
                      h4, h1]
                  by_cases hdev : 1 ≤ data.length ∧ data.length ≤ 12
                  · rw [if_pos hdev] at hid
                    simp [DataParser.parse_dataE, hid, DataParser.DataType.DEVICE_INFO,
                      DataParser.DataType.IMU_RAW, DataParser.DataType.IMU_EULER,
                      DataParser.DataType.CONFIG, DataParser.DataType.FLEX_SENSOR,
                      DataParser.DataType.JOYSTICK, DataParser.DataType.OVERALL_STATUS,
                      DataParser.DataType.BUTTONS, DataParser.DataType.FORCE_SENSOR,
                      DataParser.DataType.BATTERY, DataParser.DataType.CHARGING]
                  · rw [if_neg hdev] at hid
                    simp [DataParser.parse_dataE, hid, DataParser.DataType.UNKNOWN,
                      DataParser.DataType.IMU_RAW, DataParser.DataType.IMU_EULER,
                      DataParser.DataType.CONFIG, DataParser.DataType.FLEX_SENSOR,
                      DataParser.DataType.JOYSTICK, DataParser.DataType.OVERALL_STATUS,
                      DataParser.DataType.BUTTONS, DataParser.DataType.FORCE_SENSOR,
                      DataParser.DataType.BATTERY, DataParser.DataType.CHARGING,
                      DataParser.DataType.DEVICE_INFO]

/-- C1 witness: a concrete single-byte payload. -/
theorem c1_decoder_total_deterministic_witness :
    ∃ s, DataParser.parse_dataE (fun _ => "") [42] "" = Except.ok s :=
  (c1_decoder_total_deterministic (fun _ => "") [42] "" (by decide) (by decide)).1

/-- C2: length dispatch is exact: every 18-byte payload is identified
as IMU raw and every 13-byte payload as IMU Euler; a 1-byte payload
decodes as the battery percentage when the value is at most 100, and
as a charging state otherwise, where every code above 100 (hence
outside 0, 1, 2) renders the explicit Unknown State label instead of
erroring. -/
theorem c2_length_dispatch :
    ∀ (cfg : String → String) (data : List Nat) (uuid : String),
      (data.length = 18 →
        DataParser.identify_data_type data uuid = DataParser.DataType.IMU_RAW) ∧
      (data.length = 13 →
        DataParser.identify_data_type data uuid = DataParser.DataType.IMU_EULER) ∧
      (∀ v : Nat, v ≤ 100 →
        DataParser.parse_data cfg [v] uuid =
          "Battery Level: " ++ (if 20 < v then "🔋" else "🪫") ++ " " ++
            toString v ++ "%" ++ (if v ≤ 20 then "\nWARNING: Low battery" else "")) ∧
      (∀ v : Nat, 100 < v →
        DataParser.parse_data cfg [v] uuid = "Charging State: Unknown State") := by
  intro cfg data uuid
  refine ⟨?_, ?_, ?_, ?_⟩
  · intro h
    have hne : data ≠ [] := by intro e; rw [e] at h; simp at h
    simp [DataParser.identify_data_type, h, hne]
  · intro h
    have hne : data ≠ [] := by intro e; rw [e] at h; simp at h
    simp [DataParser.identify_data_type, h, hne]
  · intro v hv
    have hid : DataParser.identify_data_type [v] uuid = DataParser.DataType.BATTERY := by
      simp [DataParser.identify_data_type, DataParser.DataType.BATTERY, hv]
    simp [DataParser.parse_data, DataParser.parse_dataE, hid, DataParser.DataType.BATTERY,
      DataParser.DataType.IMU_RAW, DataParser.DataType.IMU_EULER, DataParser.DataType.CONFIG,
      DataParser.DataType.FLEX_SENSOR, DataParser.DataType.JOYSTICK,
      DataParser.DataType.OVERALL_STATUS, DataParser.DataType.BUTTONS,
      DataParser.DataType.FORCE_SENSOR, DataParser._parse_battery, DataParser.liftParse]
  · intro v hv
    have hid : DataParser.identify_data_type [v] uuid = DataParser.DataType.CHARGING := by
      simp [DataParser.identify_data_type, DataParser.DataType.CHARGING]
      omega
    have h0 : v ≠ 0 := by omega
    have h1 : v ≠ 1 := by omega
    have h2 : v ≠ 2 := by omega
    simp [DataParser.parse_data, DataParser.parse_dataE, hid, DataParser.DataType.CHARGING,
      DataParser.DataType.IMU_RAW, DataParser.DataType.IMU_EULER, DataParser.DataType.CONFIG,
      DataParser.DataType.FLEX_SENSOR, DataParser.DataType.JOYSTICK,
      DataParser.DataType.OVERALL_STATUS, DataParser.DataType.BUTTONS,
      DataParser.DataType.FORCE_SENSOR, DataParser.DataType.BATTERY,
      DataParser._parse_charging, DataParser._charging_map, DataParser.liftParse, h0, h1, h2]

/-- C2 witness: the 100 and 150 instances named by the spec. -/
theorem c2_length_dispatch_witness :
    DataParser.parse_data (fun _ => "") [100] "" = "Battery Level: 🔋 100%" ∧
    DataParser.parse_data (fun _ => "") [150] "" = "Charging State: Unknown State" := by
  constructor
  · have := (c2_length_dispatch (fun _ => "") [100] "").2.2.1 100 (by decide)
    simpa using this
  · exact (c2_length_dispatch (fun _ => "") [150] "").2.2.2 150 (by decide)

/-- C3: 4-byte disambiguation: when every byte is at most 3, the
payload decodes as Overall status (byte 0 the error code, bytes 1..3
component states through the status table) when the maximum byte
exceeds 1, and as the 4-flag button bitmap otherwise; when some byte
exceeds 3 it decodes as a force sensor float32, and the little-endian
encoding of 12.5 (bytes 0, 0, 72, 65, containing 72 > 3) yields the
exact value 12.5, within 0.01 of 12.50, rendered as 12.50. -/
theorem c3_length4_disambiguation :
    ∀ (cfg : String → String) (uuid : String) (b0 b1 b2 b3 : Nat),
      ((b0 ≤ 3 ∧ b1 ≤ 3 ∧ b2 ≤ 3 ∧ b3 ≤ 3) →
        (1 < [b0, b1, b2, b3].foldl max 0 →
          DataParser.parse_data cfg [b0, b1, b2, b3] uuid =
            "Overall Status:\n  Status Code: " ++ toString b0 ++ " (" ++
              (if b0 = 0 then "No Error" else "General Error") ++ ")" ++
              "\n  Fuelgauge: " ++ DataParser._status_map b1 ++
              "\n  IMU1: " ++ DataParser._status_map b2 ++
              "\n  IMU2: " ++ DataParser._status_map b3) ∧
        (¬ 1 < [b0, b1, b2, b3].foldl max 0 →
          DataParser.parse_data cfg [b0, b1, b2, b3] uuid =
            String.intercalate "\n" ["Button States:",
              "  Button 1: " ++ (if b0 ≠ 0 then "Pressed" else "Not Pressed"),
              "  Button 2: " ++ (if b1 ≠ 0 then "Pressed" else "Not Pressed"),
              "  Button 3: " ++ (if b2 ≠ 0 then "Pressed" else "Not Pressed"),
              "  Button 4: " ++ (if b3 ≠ 0 then "Pressed" else "Not Pressed")])) ∧
      (¬ (b0 ≤ 3 ∧ b1 ≤ 3 ∧ b2 ≤ 3 ∧ b3 ≤ 3) →
        DataParser.parse_data cfg [b0, b1, b2, b3] uuid =
          "Force Sensor: " ++ formatFixed2 (decodeF32 b0 b1 b2 b3) ++ " kOhm") ∧
      (Float32.val (decodeF32 0 0 72 65) = 25 / 2 ∧
        |Float32.val (decodeF32 0 0 72 65) - 125 / 10| ≤ 1 / 100 ∧
        DataParser.parse_data cfg [0, 0, 72, 65] uuid = "Force Sensor: 12.50 kOhm") := by
  intro cfg uuid b0 b1 b2 b3
  refine ⟨?_, ?_, ?_⟩
  · intro hle
    obtain ⟨h0, h1, h2, h3⟩ := hle
    constructor
    · intro hmax
      have hid : DataParser.identify_data_type [b0, b1, b2, b3] uuid =
          DataParser.DataType.OVERALL_STATUS := by
        simp only [List.foldl] at hmax
        simp [DataParser.identify_data_type, DataParser.DataType.OVERALL_STATUS,
          h0, h1, h2, h3]
        intros
        omega
      simp [DataParser.parse_data, DataParser.parse_dataE, hid,
        DataParser.DataType.OVERALL_STATUS, DataParser.DataType.IMU_RAW,
        DataParser.DataType.IMU_EULER, DataParser.DataType.CONFIG,
        DataParser.DataType.FLEX_SENSOR, DataParser.DataType.JOYSTICK,
        DataParser._parse_overall_status, DataParser.liftParse]
    · intro hmax
      have hid : DataParser.identify_data_type [b0, b1, b2, b3] uuid =
          DataParser.DataType.BUTTONS := by
        simp only [List.foldl] at hmax
        simp [DataParser.identify_data_type, DataParser.DataType.BUTTONS,
          h0, h1, h2, h3]
        omega
      simp [DataParser.parse_data, DataParser.parse_dataE, hid,
        DataParser.DataType.BUTTONS, DataParser.DataType.IMU_RAW,
        DataParser.DataType.IMU_EULER, DataParser.DataType.CONFIG,
        DataParser.DataType.FLEX_SENSOR, DataParser.DataType.JOYSTICK,
        DataParser.DataType.OVERALL_STATUS,
        DataParser._parse_buttons, List.enum, List.enumFrom]
      rfl
  · intro hgt
    have hall : ([b0, b1, b2, b3].all fun x => x ≤ 3) = false := by
      simp only [List.all_cons, List.all_nil, Bool.and_true]
      by_contra hcon
      rw [Bool.not_eq_false] at hcon
      simp only [Bool.and_eq_true, decide_eq_true_eq] at hcon
      exact hgt ⟨hcon.1, hcon.2.1, hcon.2.2⟩
    have hid : DataParser.identify_data_type [b0, b1, b2, b3] uuid =
        DataParser.DataType.FORCE_SENSOR := by
      simp [DataParser.identify_data_type, DataParser.DataType.FORCE_SENSOR, hall]
    simp [DataParser.parse_data, DataParser.parse_dataE, hid,
      DataParser.DataType.FORCE_SENSOR, DataParser.DataType.IMU_RAW,
      DataParser.DataType.IMU_EULER, DataParser.DataType.CONFIG,
      DataParser.DataType.FLEX_SENSOR, DataParser.DataType.JOYSTICK,
      DataParser.DataType.OVERALL_STATUS, DataParser.DataType.BUTTONS,
      DataParser._parse_force_sensor, DataParser.liftParse]
  · have hval : Float32.val (decodeF32 0 0 72 65) = 25 / 2 := by
      norm_num [decodeF32, Float32.val]
    refine ⟨hval, ?_, ?_⟩
    · rw [hval]
      norm_num
    · rfl

/-- C3 witness: bytes 1 2 1 0 (all at most 3, maximum 2) decode as
Overall status with the component state table applied to bytes 1..3. -/
theorem c3_length4_disambiguation_witness :
    DataParser.parse_data (fun _ => "") [1, 2, 1, 0] "" =
      "Overall Status:\n  Status Code: 1 (General Error)\n  Fuelgauge: Idle" ++
        "\n  IMU1: Failed\n  IMU2: Not Detected" := by
  rw [((c3_length4_disambiguation (fun _ => "") "" 1 2 1 0).1 (by decide)).1 (by decide)]
  rfl

/-- C6: every service is started through the 10-attempt retry loop,
which succeeds exactly when one of the first 10 attempts succeeds;
when a critical service (imu1 or imu2) exhausts its retries,
start_services runs cleanup, leaving no active subscription, and
returns False; when both critical services start, it returns True
even if non-critical services failed. -/
theorem c6_critical_failure_cleanup :
    ∀ outcome : String → Nat → Bool,
      (∀ s : String,
        DeviceManager._start_service_with_retry (outcome s) 10 = true ↔
          ∃ i, i < 10 ∧ outcome s i = true) ∧
      ((∃ c ∈ DeviceManager.critical_services,
          DeviceManager._start_service_with_retry (outcome c) 10 = false) →
        DeviceManager.start_services outcome = (false, [])) ∧
      ((∀ c ∈ DeviceManager.critical_services,
          DeviceManager._start_service_with_retry (outcome c) 10 = true) →
        (DeviceManager.start_services outcome).1 = true) := by
  intro outcome
  refine ⟨?_, ?_, ?_⟩
  · intro s
    simp [DeviceManager._start_service_with_retry, List.any_eq_true]
  · intro h
    obtain ⟨c, hc, hfail⟩ := h
    have hcserv : c ∈ DeviceManager.services := by
      have : c = "imu1" ∨ c = "imu2" := by
        simpa [DeviceManager.critical_services] using hc
      rcases this with rfl | rfl <;> simp [DeviceManager.services]
    have hmem : c ∈ ((DeviceManager.services.map
        (fun s => (s, DeviceManager._start_service_with_retry (outcome s) 10))).filter
          (fun p => !p.2)).map Prod.fst := by
      rw [List.mem_map]
      refine ⟨(c, DeviceManager._start_service_with_retry (outcome c) 10), ?_, rfl⟩
      rw [List.mem_filter]
      refine ⟨?_, by simp [hfail]⟩
      rw [List.mem_map]
      exact ⟨c, hcserv, rfl⟩
    have hcond : (DeviceManager.critical_services.any fun c0 =>
        (((DeviceManager.services.map
          (fun s => (s, DeviceManager._start_service_with_retry (outcome s) 10))).filter
            (fun p => !p.2)).map Prod.fst).contains c0) = true := by
      rw [List.any_eq_true]
      exact ⟨c, hc, List.elem_eq_true_of_mem hmem⟩
    simp only [DeviceManager.start_services]
    rw [if_pos hcond]
  · intro h
    have h1 : DeviceManager._start_service_with_retry (outcome "imu1") 10 = true :=
      h "imu1" (by simp [DeviceManager.critical_services])
    have h2 : DeviceManager._start_service_with_retry (outcome "imu2") 10 = true :=
      h "imu2" (by simp [DeviceManager.critical_services])
    have hnot : ∀ c0 ∈ DeviceManager.critical_services,
        ¬ c0 ∈ ((DeviceManager.services.map
          (fun s => (s, DeviceManager._start_service_with_retry (outcome s) 10))).filter
            (fun p => !p.2)).map Prod.fst := by
      intro c0 hc0 hmem
      rw [List.mem_map] at hmem
      obtain ⟨p, hpf, hp1⟩ := hmem
      rw [List.mem_filter] at hpf
      obtain ⟨hpm, hpfalse⟩ := hpf
      rw [List.mem_map] at hpm
      obtain ⟨s, hs, hsp⟩ := hpm
      subst hsp
      simp only [Bool.not_eq_eq_eq_not, Bool.not_true] at hpfalse
      have hc01 : c0 = "imu1" ∨ c0 = "imu2" := by
        simpa [DeviceManager.critical_services] using hc0
      have hsc : s = c0 := hp1
      subst hsc
      rcases hc01 with rfl | rfl
      · rw [h1] at hpfalse; simp at hpfalse
      · rw [h2] at hpfalse; simp at hpfalse
    have hcond : (DeviceManager.critical_services.any fun c0 =>
        (((DeviceManager.services.map
          (fun s => (s, DeviceManager._start_service_with_retry (outcome s) 10))).filter
            (fun p => !p.2)).map Prod.fst).contains c0) = false := by
      rw [Bool.eq_false_iff]
      intro hany
      rw [List.any_eq_true] at hany
      obtain ⟨c0, hc0, hcont⟩ := hany
      exact hnot c0 hc0 (List.mem_of_elem_eq_true hcont)
    simp only [DeviceManager.start_services]
    rw [if_neg (by rw [hcond]; simp)]

/-- C6 witness: an environment where imu2 never starts while the
others succeed immediately. -/
theorem c6_critical_failure_cleanup_witness :
    DeviceManager.start_services (fun s _ => !(s == "imu2")) = (false, []) :=
  (c6_critical_failure_cleanup (fun s _ => !(s == "imu2"))).2.1
    ⟨"imu2", by simp [DeviceManager.critical_services], by decide⟩

/-- C7 counterexample: with a connected service whose callback
registry already holds a subscription for the characteristic, a
second call to _start_notify_generic returns success but issues
another transport-level start_notify (the call counter increases),
so the already-subscribed case is not a transport no-op. -/
theorem c7_counterexample :
    (ESP32Service._start_notify_generic
        { connected := true
          callbacks := fun u => if u = "imu1-uuid" then some 7 else none
          transport_calls := 0 }
        "imu1-uuid" 7 (fun _ => true)).1 = true ∧
    (ESP32Service._start_notify_generic
        { connected := true
          callbacks := fun u => if u = "imu1-uuid" then some 7 else none
          transport_calls := 0 }
        "imu1-uuid" 7 (fun _ => true)).2.transport_calls = 1 := by
  constructor <;> rfl

/-- C7 amended: _start_notify_generic performs no already-subscribed
check; whenever the service is connected and the first transport
attempt succeeds, the call returns success, overwrites the callback
registration, and issues exactly one more transport-level subscribe,
regardless of the prior registry contents. -/
theorem c7_resubscribe_issues_transport_call :
    ∀ (st : ESP32Service.NotifyState) (uuid : String) (cb : Nat) (outcome : Nat → Bool),
      st.connected = true → outcome 0 = true →
      ESP32Service._start_notify_generic st uuid cb outcome =
        (true,
          { st with
            callbacks := ESP32Service.updFun st.callbacks uuid (some cb)
            transport_calls := st.transport_calls + 1 }) := by
  intro st uuid cb outcome hc h0
  simp [ESP32Service._start_notify_generic, hc, ESP32Service.notifyAttempts, h0]

/-- Attempt counter bound for the reconnection loop. -/
lemma reconnectAux_fst_le (succ : Nat → Bool) :
    ∀ fuel i delays, (ConnectionPresenter.reconnectAux succ fuel i delays).1 ≤ i + fuel := by
  intro fuel
  induction fuel with
  | zero => intro i delays; simp [ConnectionPresenter.reconnectAux]
  | succ n ih =>
    intro i delays
    simp only [ConnectionPresenter.reconnectAux]
    by_cases hs : succ i = true
    · rw [if_pos hs]
      dsimp only
      omega
    · rw [if_neg hs]
      by_cases hi : i < ConnectionPresenter.MAX_RECONNECT_ATTEMPTS - 1
      · rw [if_pos hi]
        have := ih (i + 1) (delays + 1)
        omega
      · rw [if_neg hi]
        have := ih (i + 1) delays
        omega

/-- When every attempt in the remaining window fails, the
reconnection loop exhausts the window, sleeps after every non-final
attempt, and disconnects. -/
lemma reconnectAux_all_fail (succ : Nat → Bool) :
    ∀ fuel i delays,
      (∀ j, i ≤ j → j < ConnectionPresenter.MAX_RECONNECT_ATTEMPTS → succ j = false) →
      i + fuel = ConnectionPresenter.MAX_RECONNECT_ATTEMPTS →
      ConnectionPresenter.reconnectAux succ fuel i delays =
        (ConnectionPresenter.MAX_RECONNECT_ATTEMPTS,
         delays + (ConnectionPresenter.MAX_RECONNECT_ATTEMPTS - 1 - i),
         ConnectionPresenter.SessionOutcome.disconnected) := by
  have hM : ConnectionPresenter.MAX_RECONNECT_ATTEMPTS = 5 := rfl
  intro fuel
  induction fuel with
  | zero =>
    intro i delays hfail hiw
    simp only [ConnectionPresenter.reconnectAux]
    refine Prod.ext ?_ (Prod.ext ?_ rfl) <;> simp <;> omega
  | succ n ih =>
    intro i delays hfail hiw
    have hsi : succ i = false := hfail i (Nat.le_refl i) (by omega)
    simp only [ConnectionPresenter.reconnectAux, hsi, Bool.false_eq_true, if_false]
    by_cases hi : i < ConnectionPresenter.MAX_RECONNECT_ATTEMPTS - 1
    · simp only [hi, if_true]
      rw [ih (i + 1) (delays + 1) (fun j h1 h2 => hfail j (by omega) h2) (by omega)]
      refine Prod.ext rfl (Prod.ext ?_ rfl)
      simp
      omega
    · simp only [hi, if_false]
      rw [ih (i + 1) delays (fun j h1 h2 => hfail j (by omega) h2) (by omega)]
      refine Prod.ext rfl (Prod.ext ?_ rfl)
      simp
      omega

/-- When the first success in the window occurs at index k, the
reconnection loop stops right there, after k delay sleeps. -/
lemma reconnectAux_first_success (succ : Nat → Bool) :
    ∀ fuel i delays k,
      i ≤ k → k < i + fuel → i + fuel = ConnectionPresenter.MAX_RECONNECT_ATTEMPTS →
      (∀ j, i ≤ j → j < k → succ j = false) → succ k = true →
      ConnectionPresenter.reconnectAux succ fuel i delays =
        (k + 1, delays + (k - i), ConnectionPresenter.SessionOutcome.reconnected) := by
  have hM : ConnectionPresenter.MAX_RECONNECT_ATTEMPTS = 5 := rfl
  intro fuel
  induction fuel with
  | zero => intro i delays k h1 h2; omega
  | succ n ih =>
    intro i delays k hik hkw hiw hfail hk
    by_cases hie : i = k
    · subst hie
      simp only [ConnectionPresenter.reconnectAux, hk, if_true]
      refine Prod.ext rfl (Prod.ext ?_ rfl)
      simp
    · have hsi : succ i = false := hfail i (Nat.le_refl i) (by omega)
      have hi : i < ConnectionPresenter.MAX_RECONNECT_ATTEMPTS - 1 := by omega
      simp only [ConnectionPresenter.reconnectAux, hsi, Bool.false_eq_true, if_false, hi,
        if_true]
      rw [ih (i + 1) (delays + 1) k (by omega) (by omega) (by omega)
        (fun j ha hb => hfail j (by omega) hb) hk]
      refine Prod.ext rfl (Prod.ext ?_ rfl)
      simp
      omega

/-- C8: once a heartbeat read fails, the auto-reconnection loop makes
at most 5 attempts; if all 5 attempts fail (connect or service
startup failing) it disconnects after exactly 5 attempts with 4
intervening RECONNECT_DELAY sleeps of 5 seconds and never starts a
sixth attempt; if attempt k is the first to have both connect and
service startup succeed, the loop stops after k + 1 attempts and k
sleeps and the session resumes monitoring. -/
theorem c8_reconnection_policy :
    ∀ env : Nat → Bool × Bool,
      (ConnectionPresenter.auto_reconnect env).1 ≤ 5 ∧
      ConnectionPresenter.RECONNECT_DELAY = 5 ∧
      ((∀ i, i < 5 → ConnectionPresenter.attemptOk env i = false) →
        ConnectionPresenter.auto_reconnect env =
          (5, 4, ConnectionPresenter.SessionOutcome.disconnected)) ∧
      (∀ k, k < 5 → (∀ j, j < k → ConnectionPresenter.attemptOk env j = false) →
        ConnectionPresenter.attemptOk env k = true →
        ConnectionPresenter.auto_reconnect env =
          (k + 1, k, ConnectionPresenter.SessionOutcome.reconnected)) := by
  intro env
  refine ⟨?_, rfl, ?_, ?_⟩
  · exact reconnectAux_fst_le (ConnectionPresenter.attemptOk env) 5 0 0
  · intro hall
    have := reconnectAux_all_fail (ConnectionPresenter.attemptOk env) 5 0 0
      (fun j _ hj => hall j hj) rfl
    simpa using this
  · intro k hk hprev hsucc
    have := reconnectAux_first_success (ConnectionPresenter.attemptOk env) 5 0 0 k
      (Nat.zero_le k) (by omega) rfl (fun j _ hj => hprev j hj) hsucc
    simpa using this

/-- C8 witness: an environment failing the first two attempts and
succeeding on the third. -/
theorem c8_reconnection_policy_witness :
    ConnectionPresenter.auto_reconnect (fun i => (2 ≤ i, true)) =
      (3, 2, ConnectionPresenter.SessionOutcome.reconnected) :=
  (c8_reconnection_policy (fun i => (2 ≤ i, true))).2.2.2 2 (by decide)
    (fun j hj => by
      interval_cases j <;> rfl)
    rfl

/-- C7 amended witness: concrete re-subscription of an
already-subscribed characteristic. -/
theorem c7_resubscribe_issues_transport_call_witness :
    ESP32Service._start_notify_generic
        { connected := true, callbacks := fun _ => some 3, transport_calls := 4 }
        "u" 3 (fun _ => true) =
      (true,
        { connected := true
          callbacks := ESP32Service.updFun (fun _ => some 3) "u" (some 3)
          transport_calls := 4 + 1 }) :=
  c7_resubscribe_issues_transport_call
    { connected := true, callbacks := fun _ => some 3, transport_calls := 4 }
    "u" 3 (fun _ => true) rfl rfl
